import Mathlib

/-!
# CreateSlab command: decode of one slab item and the batch loop

A shallow embedding of `AddOn/Sources/AddOn/Commands/CreateSlab.cpp`.

* The host application (document, transactions, story table, GUID text form,
  enumeration dictionaries) is not part of the file; it is the record `Host`.
* `GetSlabFromObjectState` follows the C++ function statement by statement, the
  four reference parameters being passed in and handed back as `SlabArgs`.
* `Execute` is the range-for loop of the command, with the document, the
  status variable `err`, the result list and a log of the calls made as the
  loop state.
-/

namespace AddOnCommands

/-! ## Host data types -/

/-- Status code of the host API. -/
abbrev GSErrCode := Int

/-- The status that means success. -/
def NoError : GSErrCode := 0

/-- Generic failure status of the host API. -/
def Error : GSErrCode := -1

/-- Opaque 128-bit element identifier. -/
abbrev API_Guid := Nat

/-- The null identifier. -/
def APINULLGuid : API_Guid := 0

/-- A C++ double, kept as its 64-bit pattern: the command only copies doubles
and never computes with them. -/
structure Double where
  bits : Nat
deriving DecidableEq, Repr

/-- The double written `0` in the source. -/
def Double.zero : Double := ⟨0⟩

/-- A C++ `short`: a 16-bit two's-complement integer. -/
abbrev Short := { i : Int // -32768 ≤ i ∧ i < 32768 }

/-- The `short` an integer is stored as: the integer itself when it fits, and
its low 16 bits read as a two's-complement number otherwise. -/
def toShort (i : Int) : Short :=
  ⟨(i + 32768) % 65536 - 32768, by omega⟩

/-- The `short` with value zero. -/
def Short.zero : Short := ⟨0, by decide⟩

/-- Element type tag of the header; only the cleared value and the slab tag occur. -/
inductive API_ElemTypeID where
  | API_ZombieElemID
  | API_SlabID
deriving DecidableEq, Repr

/-- Structure kind of a model element; the first constructor is the cleared value. -/
inductive API_ModelElemStructureType where
  | API_BasicStructure
  | API_CompositeStructure
  | API_ProfileStructure
deriving DecidableEq, Repr

/-- Reference plane of a slab; the first constructor is the cleared value. -/
inductive API_SlabReferencePlaneLocationID where
  | APISlabRefPlane_Top
  | APISlabRefPlane_CoreTop
  | APISlabRefPlane_CoreBottom
  | APISlabRefPlane_Bottom
deriving DecidableEq, Repr

/-- Trim kind of a slab edge; the first constructor is the cleared value. -/
inductive API_EdgeTrimID where
  | APIEdgeTrim_Vertical
  | APIEdgeTrim_Perpendicular
  | APIEdgeTrim_Horizontal
  | APIEdgeTrim_CustomAngle
  | APIEdgeTrim_AlignWithCut
deriving DecidableEq, Repr

/-- Side material of one edge. -/
structure API_OverriddenAttribute where
  attributeIndex : Int
  overridden : Bool
deriving DecidableEq, Repr

/-- Trim data of one edge. -/
structure API_EdgeTrim where
  sideType : API_EdgeTrimID
  sideAngle : Double
deriving DecidableEq, Repr

/-- An `API_OverriddenAttribute` slot as `ALLOCATE_CLEAR` leaves it. -/
def API_OverriddenAttribute.cleared : API_OverriddenAttribute := ⟨0, false⟩

/-- An `API_EdgeTrim` slot as `ALLOCATE_CLEAR` leaves it. -/
def API_EdgeTrim.cleared : API_EdgeTrim := ⟨.APIEdgeTrim_Vertical, Double.zero⟩

/-- Element header: the fields the command touches; `floorInd` is a `short`. -/
structure API_Elem_Head where
  typeID : API_ElemTypeID
  guid : API_Guid
  floorInd : Short
deriving DecidableEq, Repr

/-- Polygon counts. `Int32` in the source; kept as integers here, the `Int32`
arithmetic on them (`nCoords + 1`, `++k`) being exact below `2^31 - 1`. -/
structure API_Polygon where
  nCoords : Int
  nSubPolys : Int
  nArcs : Int
deriving DecidableEq, Repr

/-- Slab part of the element record: the fields the command touches. -/
structure API_SlabType where
  modelElemStructureType : API_ModelElemStructureType
  thickness : Double
  level : Double
  referencePlaneLocation : API_SlabReferencePlaneLocationID
  poly : API_Polygon
  sideMat : API_OverriddenAttribute
deriving DecidableEq, Repr

/-- The element record. -/
structure API_Element where
  header : API_Elem_Head
  slab : API_SlabType
deriving DecidableEq, Repr

/-- The value of `API_Element slab {}`. -/
def API_Element.zero : API_Element :=
  { header := ⟨.API_ZombieElemID, APINULLGuid, Short.zero⟩
    slab := ⟨.API_BasicStructure, Double.zero, Double.zero, .APISlabRefPlane_Top, ⟨0, 0, 0⟩,
      API_OverriddenAttribute.cleared⟩ }

/-- The fields of the element record, as tags of the change mask. -/
inductive MaskField where
  | typeID
  | guid
  | floorInd
  | poly_nSubPolys
  | poly_nCoords
  | poly_nArcs
  | level
  | modelElemStructureType
  | thickness
  | referencePlaneLocation
  | sideMat
deriving DecidableEq, Repr

/-- The change mask: an element-shaped record in which a field is either all
ones (marked) or all zeros. -/
structure ElemMask where
  typeID : Bool
  guid : Bool
  floorInd : Bool
  poly_nSubPolys : Bool
  poly_nCoords : Bool
  poly_nArcs : Bool
  level : Bool
  modelElemStructureType : Bool
  thickness : Bool
  referencePlaneLocation : Bool
  sideMat : Bool
deriving DecidableEq, Repr

/-- The value of `API_Element slabMask {}`. -/
def ElemMask.zero : ElemMask :=
  ⟨false, false, false, false, false, false, false, false, false, false, false⟩

/-- Whether a field is marked in the mask. -/
def ElemMask.get (m : ElemMask) : MaskField → Bool
  | .typeID => m.typeID
  | .guid => m.guid
  | .floorInd => m.floorInd
  | .poly_nSubPolys => m.poly_nSubPolys
  | .poly_nCoords => m.poly_nCoords
  | .poly_nArcs => m.poly_nArcs
  | .level => m.level
  | .modelElemStructureType => m.modelElemStructureType
  | .thickness => m.thickness
  | .referencePlaneLocation => m.referencePlaneLocation
  | .sideMat => m.sideMat

/-- The macro `ACAPI_ELEMENT_MASK_SET (mask, type, field)`: marks one field. -/
def ACAPI_ELEMENT_MASK_SET (m : ElemMask) : MaskField → ElemMask
  | .typeID => { m with typeID := true }
  | .guid => { m with guid := true }
  | .floorInd => { m with floorInd := true }
  | .poly_nSubPolys => { m with poly_nSubPolys := true }
  | .poly_nCoords => { m with poly_nCoords := true }
  | .poly_nArcs => { m with poly_nArcs := true }
  | .level => { m with level := true }
  | .modelElemStructureType => { m with modelElemStructureType := true }
  | .thickness => { m with thickness := true }
  | .referencePlaneLocation => { m with referencePlaneLocation := true }
  | .sideMat => { m with sideMat := true }

/-- Geometry payload of a polygon (coordinates, contour ends, arcs), opaque here. -/
abbrev Geometry := List Int

/-- The memo of an element: the handles the command touches. `none` is a null handle. -/
structure API_ElementMemo where
  polygon : Option Geometry
  edgeTrims : Option (List API_EdgeTrim)
  edgeIDs : Option (List Nat)
  sideMaterials : Option (List API_OverriddenAttribute)
deriving DecidableEq, Repr

/-- The value of `API_ElementMemo slabMemo {}`. -/
def API_ElementMemo.zero : API_ElementMemo := ⟨none, none, none, none⟩

/-- Modelled from the spec: `Objects::ElementShape` (Objects/Polyline.hpp is not
among the sources). The shape adapter yields the sub-polygon count, the vertex
count, the arc count and the geometry payload, and the shape carries its
absolute elevation. -/
structure ElementShape where
  subpolyCount : Int
  vertexCount : Int
  arcCount : Int
  level : Double
  geometry : Geometry
deriving DecidableEq, Repr

/-- Method `SubpolyCount ()` of the shape. -/
def ElementShape.SubpolyCount (s : ElementShape) : Int := s.subpolyCount

/-- Method `VertexCount ()` of the shape. -/
def ElementShape.VertexCount (s : ElementShape) : Int := s.vertexCount

/-- Method `ArcCount ()` of the shape. -/
def ElementShape.ArcCount (s : ElementShape) : Int := s.arcCount

/-- Method `Level ()` of the shape. -/
def ElementShape.Level (s : ElementShape) : Double := s.level

/-! ## The input document -/

/-- The field-name constants of FieldNames.hpp that the decode reads. -/
inductive FieldName where
  | ElementIdFieldName
  | ShapeFieldName
  | FloorIndexFieldName
  | StructureFieldName
  | ThicknessFieldName
  | ReferencePlaneLocationFieldName
  | EdgeAngleTypeFieldName
  | EdgeAngleFieldName
deriving DecidableEq, Repr

/-- A value stored in an object state. -/
inductive Value where
  | str (s : String)
  | int (i : Int)
  | dbl (x : Double)
  | shape (s : ElementShape)
deriving DecidableEq, Repr

/-- One item of the batch: a name-to-value store. -/
abbrev ObjectState := List (FieldName × Value)

/-- Method `os.Contains (name)`. -/
def ObjectState.Contains (os : ObjectState) (f : FieldName) : Bool :=
  (os.lookup f).isSome

/-- Method `os.Get (name, UniString&)`: stores the value when the field holds a
string and leaves the destination as it was otherwise. -/
def ObjectState.GetString (os : ObjectState) (f : FieldName) (dst : String) : String :=
  match os.lookup f with
  | some (.str s) => s
  | _ => dst

/-- Method `os.Get (name, short&)`, same convention; the integer of the field is
stored into the 16-bit destination, so one that does not fit is cut to 16 bits. -/
def ObjectState.GetShort (os : ObjectState) (f : FieldName) (dst : Short) : Short :=
  match os.lookup f with
  | some (.int i) => toShort i
  | _ => dst

/-- Method `os.Get (name, double&)`, same convention. -/
def ObjectState.GetDouble (os : ObjectState) (f : FieldName) (dst : Double) : Double :=
  match os.lookup f with
  | some (.dbl x) => x
  | _ => dst

/-- Method `os.Get (name, ElementShape&)`, same convention. -/
def ObjectState.GetShape (os : ObjectState) (f : FieldName) (dst : ElementShape) : ElementShape :=
  match os.lookup f with
  | some (.shape s) => s
  | _ => dst

/-! ## The host -/

/-- Everything the command calls that lives outside CreateSlab.cpp, over a
document type `Doc`. -/
structure Host (Doc : Type) where
  /-- `APIGuidFromString`: total, it has no error channel. -/
  APIGuidFromString : String → API_Guid
  /-- `APIGuidToString`. -/
  APIGuidToString : API_Guid → String
  /-- `Utility::GetBaseElementData (element, &memo)`: status, element and memo after the call. -/
  GetBaseElementData : Doc → API_Element → API_ElementMemo →
    GSErrCode × API_Element × API_ElementMemo
  /-- `Utility::ElementExists (guid)`. -/
  ElementExists : Doc → API_Guid → Bool
  /-- `ACAPI_Element_Create (&slab, &memo)`: status, document and element after the call. -/
  ACAPI_Element_Create : Doc → API_Element → API_ElementMemo → GSErrCode × Doc × API_Element
  /-- `ACAPI_Element_Change (&slab, &mask, &memo, memoMask, withdel)`. -/
  ACAPI_Element_Change : Doc → API_Element → ElemMask → API_ElementMemo → Nat → Bool →
    GSErrCode × Doc × API_Element
  /-- `ACAPI_CallUndoableCommand`, which runs the body once: from the command
  name, the document before, the status the body returned and the document the
  body left, the status of the call and the document the host keeps. -/
  ACAPI_CallUndoableCommand : String → Doc → GSErrCode → Doc → GSErrCode × Doc
  /-- `Utility::SetStoryLevel (elevation, floorInd, level)`: the level it writes,
  for a given elevation and floor index (the story-table interface
  `resolveLevelGivenFloor` of the spec). -/
  SetStoryLevel : Doc → Double → Short → Double
  /-- `Utility::SetStoryLevelAndFloor (elevation, floorInd, level)`: the floor
  index and the level it writes, for a given elevation (`resolveFloorAndLevel`
  of the spec). -/
  SetStoryLevelAndFloor : Doc → Double → Short × Double
  /-- A default-constructed `Objects::ElementShape`. -/
  defaultShape : ElementShape
  /-- Method `SetToMemo (memo)` of the shape. -/
  SetToMemo : ElementShape → API_ElementMemo → API_ElementMemo
  /-- `structureTypeNames.FindValue`. -/
  structureTypeNames : String → Option API_ModelElemStructureType
  /-- `referencePlaneLocationNames.FindValue`. -/
  referencePlaneLocationNames : String → Option API_SlabReferencePlaneLocationID
  /-- `edgeAngleTypeNames.FindValue`. -/
  edgeAngleTypeNames : String → Option API_EdgeTrimID
  /-- The memo-mask bit `APIMemoMask_Polygon`. -/
  APIMemoMask_Polygon : Nat
  /-- The memo-mask bit `APIMemoMask_SideMaterials`. -/
  APIMemoMask_SideMaterials : Nat
  /-- The memo-mask bit `APIMemoMask_EdgeTrims`. -/
  APIMemoMask_EdgeTrims : Nat
  /-- The value of the constant expression `PI / 2` (AngleData.h). -/
  halfPI : Double

/-! ## Decode of one item -/

/-- A call the decode makes into the shape adapter or the story table. -/
inductive UtilityCall where
  | SetToMemo (shape : ElementShape)
  | SetStoryLevel (elevation : Double) (floorInd : Short)
  | SetStoryLevelAndFloor (elevation : Double)
deriving DecidableEq, Repr

/-- The four reference parameters of `GetSlabFromObjectState`, and the log of
the adapter and story-table calls made so far. -/
structure SlabArgs where
  element : API_Element
  mask : ElemMask
  slabMemo : API_ElementMemo
  memoMask : Nat
  calls : List UtilityCall
deriving DecidableEq, Repr

/-- The arguments `Execute` declares afresh for every item. -/
def SlabArgs.fresh : SlabArgs :=
  ⟨API_Element.zero, ElemMask.zero, API_ElementMemo.zero, 0, []⟩

/-- Whether a call is one of the two floor and level derivations. -/
def UtilityCall.isStoryCall : UtilityCall → Bool
  | .SetStoryLevel _ _ => true
  | .SetStoryLevelAndFloor _ => true
  | .SetToMemo _ => false

/-- Whether a call hands the shape to the memo. -/
def UtilityCall.isSetToMemo : UtilityCall → Bool
  | .SetToMemo _ => true
  | _ => false

/-- The indices the fill loop `for (Int32 k = 1; k <= nCoords; ++k)` visits, in order. -/
def fillIndices (nCoords : Int) : List Nat := List.range' 1 nCoords.toNat

/-- Number of slots of a buffer allocated with `(nCoords + 1) * sizeof (entry)`
bytes; the allocation is taken to succeed, and a size that is not positive
gives no slot. -/
def slotCount (nCoords : Int) : Nat := (nCoords + 1).toNat

/-- One turn of the fill loop: the writes to `sideMaterials [k]` and to both
fields of `(*edgeTrims) [k]`. -/
def fillStep (sideMat : API_OverriddenAttribute) (edgeType : API_EdgeTrimID)
    (edgeAngle : Option Double) (halfPI : Double) (memo : API_ElementMemo) (k : Nat) :
    API_ElementMemo :=
  { memo with
    sideMaterials := memo.sideMaterials.map (fun a => a.set k sideMat)
    edgeTrims := memo.edgeTrims.map (fun a =>
      a.set k ⟨edgeType, match edgeAngle with
        | some angle => angle
        | none => halfPI⟩) }

/-- Lines 122-134: release of the old buffers, allocation of the two cleared
arrays and the fill loop. -/
def setEdgeBuffers (nCoords : Int) (sideMat : API_OverriddenAttribute)
    (edgeType : API_EdgeTrimID) (edgeAngle : Option Double) (halfPI : Double)
    (memo : API_ElementMemo) : API_ElementMemo :=
  let killed : API_ElementMemo :=
    { memo with edgeTrims := none, edgeIDs := none, sideMaterials := none }
  let allocated : API_ElementMemo :=
    { killed with
      edgeTrims := some (List.replicate (slotCount nCoords) API_EdgeTrim.cleared)
      sideMaterials := some (List.replicate (slotCount nCoords) API_OverriddenAttribute.cleared) }
  (fillIndices nCoords).foldl (fillStep sideMat edgeType edgeAngle halfPI) allocated

/-- Lines 104-112: the edge type, perpendicular unless the field names a mapped value. -/
def decodeEdgeType {Doc : Type} (h : Host Doc) (os : ObjectState) : API_EdgeTrimID :=
  if os.Contains .EdgeAngleTypeFieldName then
    match h.edgeAngleTypeNames (os.GetString .EdgeAngleTypeFieldName "") with
    | some type => type
    | none => .APIEdgeTrim_Perpendicular
  else .APIEdgeTrim_Perpendicular

/-- Lines 115-120: the optional edge angle. -/
def decodeEdgeAngle (os : ObjectState) : Option Double :=
  if os.Contains .EdgeAngleFieldName then
    some (os.GetDouble .EdgeAngleFieldName Double.zero)
  else none

/-- Lines 35-41: the guid is parsed from the identifier text, the type tag is
set, and base element data is looked up for that record. -/
def baseElementData {Doc : Type} (h : Host Doc) (d : Doc) (os : ObjectState) (a : SlabArgs) :
    GSErrCode × API_Element × API_ElementMemo :=
  let guidString := os.GetString .ElementIdFieldName ""
  let element : API_Element :=
    { a.element with
      header := { a.element.header with
        guid := h.APIGuidFromString guidString, typeID := .API_SlabID } }
  h.GetBaseElementData d element a.slabMemo

/-- Lines 54-57: the local `slabShape`, default-constructed and then read from
the shape field when the item has one. -/
def slabShapeOf {Doc : Type} (h : Host Doc) (os : ObjectState) : ElementShape :=
  if os.Contains .ShapeFieldName then os.GetShape .ShapeFieldName h.defaultShape
  else h.defaultShape

/-- Lines 45-51: the memo mask and the five fields marked for every item. -/
def markCommon {Doc : Type} (h : Host Doc) (a : SlabArgs) : SlabArgs :=
  let mask := ACAPI_ELEMENT_MASK_SET a.mask .poly_nSubPolys
  let mask := ACAPI_ELEMENT_MASK_SET mask .poly_nCoords
  let mask := ACAPI_ELEMENT_MASK_SET mask .poly_nArcs
  let mask := ACAPI_ELEMENT_MASK_SET mask .level
  let mask := ACAPI_ELEMENT_MASK_SET mask .floorInd
  { a with
    memoMask := h.APIMemoMask_Polygon ||| h.APIMemoMask_SideMaterials |||
      h.APIMemoMask_EdgeTrims
    mask := mask }

/-- Lines 53-63: the shape of the slab. -/
def decodeShape {Doc : Type} (h : Host Doc) (os : ObjectState) (a : SlabArgs) : SlabArgs :=
  let slabShape := slabShapeOf h os
  if os.Contains .ShapeFieldName then
    { a with
      element := { a.element with
        slab := { a.element.slab with
          poly := { a.element.slab.poly with
            nSubPolys := slabShape.SubpolyCount
            nCoords := slabShape.VertexCount
            nArcs := slabShape.ArcCount } } }
      slabMemo := h.SetToMemo slabShape a.slabMemo
      calls := a.calls ++ [.SetToMemo slabShape] }
  else a

/-- Lines 65-71: the floor index and level of the slab. -/
def decodeFloorLevel {Doc : Type} (h : Host Doc) (d : Doc) (os : ObjectState) (a : SlabArgs) :
    SlabArgs :=
  let slabShape := slabShapeOf h os
  if os.Contains .FloorIndexFieldName then
    let floorInd := os.GetShort .FloorIndexFieldName a.element.header.floorInd
    { a with
      element := { a.element with
        header := { a.element.header with floorInd := floorInd }
        slab := { a.element.slab with level := h.SetStoryLevel d slabShape.Level floorInd } }
      calls := a.calls ++ [.SetStoryLevel slabShape.Level floorInd] }
  else
    let derived := h.SetStoryLevelAndFloor d slabShape.Level
    { a with
      element := { a.element with
        header := { a.element.header with floorInd := derived.1 }
        slab := { a.element.slab with level := derived.2 } }
      calls := a.calls ++ [.SetStoryLevelAndFloor slabShape.Level] }

/-- Lines 73-83: the structure of the slab. -/
def decodeStructure {Doc : Type} (h : Host Doc) (os : ObjectState) (a : SlabArgs) : SlabArgs :=
  if os.Contains .StructureFieldName then
    let structureName := os.GetString .StructureFieldName ""
    let element : API_Element :=
      match h.structureTypeNames structureName with
      | some type =>
        { a.element with slab := { a.element.slab with modelElemStructureType := type } }
      | none => a.element
    { a with element := element, mask := ACAPI_ELEMENT_MASK_SET a.mask .modelElemStructureType }
  else a

/-- Lines 85-89: the thickness of the slab. -/
def decodeThickness (os : ObjectState) (a : SlabArgs) : SlabArgs :=
  if os.Contains .ThicknessFieldName then
    { a with
      element := { a.element with
        slab := { a.element.slab with
          thickness := os.GetDouble .ThicknessFieldName a.element.slab.thickness } }
      mask := ACAPI_ELEMENT_MASK_SET a.mask .thickness }
  else a

/-- Lines 91-101: the reference plane of the slab. -/
def decodeReferencePlane {Doc : Type} (h : Host Doc) (os : ObjectState) (a : SlabArgs) :
    SlabArgs :=
  if os.Contains .ReferencePlaneLocationFieldName then
    let refPlaneLocationName := os.GetString .ReferencePlaneLocationFieldName ""
    let element : API_Element :=
      match h.referencePlaneLocationNames refPlaneLocationName with
      | some id =>
        { a.element with slab := { a.element.slab with referencePlaneLocation := id } }
      | none => a.element
    { a with element := element, mask := ACAPI_ELEMENT_MASK_SET a.mask .referencePlaneLocation }
  else a

/-- Lines 103-134: edge type, edge angle, and the two per-edge buffers. -/
def decodeEdges {Doc : Type} (h : Host Doc) (os : ObjectState) (a : SlabArgs) : SlabArgs :=
  let edgeType := decodeEdgeType h os
  let edgeAngle := decodeEdgeAngle os
  { a with
    slabMemo := setEdgeBuffers a.element.slab.poly.nCoords a.element.slab.sideMat edgeType
      edgeAngle h.halfPI a.slabMemo }

/-- Function `GetSlabFromObjectState`: the status returned and the reference
parameters as the function leaves them. -/
def GetSlabFromObjectState {Doc : Type} (h : Host Doc) (d : Doc) (os : ObjectState)
    (a : SlabArgs) : GSErrCode × SlabArgs :=
  let base := baseElementData h d os a
  let err := base.1
  let a : SlabArgs := { a with element := base.2.1, slabMemo := base.2.2 }
  if err ≠ NoError then
    (err, a)
  else
    let a := markCommon h a
    let a := decodeShape h os a
    let a := decodeFloorLevel h d os a
    let a := decodeStructure h os a
    let a := decodeThickness os a
    let a := decodeReferencePlane h os a
    let a := decodeEdges h os a
    (NoError, a)

/-! ## The batch loop -/

/-- Function `CreateNewSlab`. -/
def CreateNewSlab {Doc : Type} (h : Host Doc) (d : Doc) (slab : API_Element)
    (slabMemo : API_ElementMemo) : GSErrCode × Doc × API_Element :=
  h.ACAPI_Element_Create d slab slabMemo

/-- Function `ModifyExistingSlab`. -/
def ModifyExistingSlab {Doc : Type} (h : Host Doc) (d : Doc) (slab : API_Element)
    (mask : ElemMask) (slabMemo : API_ElementMemo) (memoMask : Nat) :
    GSErrCode × Doc × API_Element :=
  h.ACAPI_Element_Change d slab mask slabMemo memoMask true

/-- The calls `Execute` makes, in the order it makes them. -/
inductive Event where
  | CallUndoableCommand (name : String)
  | GetSlabFromObjectState (os : ObjectState) (err : GSErrCode)
  | ElementExists (guid : API_Guid) (found : Bool)
  | ModifyExistingSlab (slab : API_Element) (mask : ElemMask) (slabMemo : API_ElementMemo)
      (memoMask : Nat) (err : GSErrCode)
  | CreateNewSlab (slab : API_Element) (slabMemo : API_ElementMemo) (err : GSErrCode)
  | DisposeElemMemoHdls
  | listAdder (elemId : String)
  | commandReturn (err : GSErrCode)
deriving DecidableEq, Repr

/-- Whether an event is a create or a modify call. -/
def Event.isMutation : Event → Bool
  | .ModifyExistingSlab _ _ _ _ _ => true
  | .CreateNewSlab _ _ _ => true
  | _ => false

/-- Whether an event opens or ends the undoable command. -/
def Event.isCommand : Event → Bool
  | .CallUndoableCommand _ => true
  | .commandReturn _ => true
  | _ => false

/-- The variables the loop of `Execute` carries from one item to the next. -/
structure LoopState (Doc : Type) where
  doc : Doc
  err : GSErrCode
  elementIds : List String
  log : List Event

/-- The body of `for (const GS::ObjectState& slabOs : slabs)`; each `continue`
ends the turn with the state reached there. -/
def slabLoopBody {Doc : Type} (h : Host Doc) (st : LoopState Doc) (slabOs : ObjectState) :
    LoopState Doc :=
  let decoded := GetSlabFromObjectState h st.doc slabOs SlabArgs.fresh
  let err := decoded.1
  let slab := decoded.2.element
  let slabMask := decoded.2.mask
  let slabMemo := decoded.2.slabMemo
  let memoMask := decoded.2.memoMask
  let log := st.log ++ [.GetSlabFromObjectState slabOs err]
  if err ≠ NoError then
    { st with err := err, log := log ++ [.DisposeElemMemoHdls] }
  else
    let slabExists := h.ElementExists st.doc slab.header.guid
    let log := log ++ [.ElementExists slab.header.guid slabExists]
    let called :=
      if slabExists then ModifyExistingSlab h st.doc slab slabMask slabMemo memoMask
      else CreateNewSlab h st.doc slab slabMemo
    let err := called.1
    let log := log ++
      [if slabExists then .ModifyExistingSlab slab slabMask slabMemo memoMask err
       else .CreateNewSlab slab slabMemo err]
    let slab := called.2.2
    let log := log ++ [.DisposeElemMemoHdls]
    if err ≠ NoError then
      { doc := called.2.1, err := err, elementIds := st.elementIds, log := log }
    else
      let elemId := h.APIGuidToString slab.header.guid
      { doc := called.2.1, err := err, elementIds := st.elementIds ++ [elemId],
        log := log ++ [.listAdder elemId] }

/-- What `Execute` leaves behind: the identifier list of the result, the status
of the undoable command, the document, and the log of calls. -/
structure ExecuteResult (Doc : Type) where
  elementIds : List String
  errCode : GSErrCode
  doc : Doc
  log : List Event

/-- The state in which the body of the undoable command starts. -/
def loopStart {Doc : Type} (d : Doc) : LoopState Doc :=
  { doc := d, err := NoError, elementIds := [],
    log := [.CallUndoableCommand "CreateSpeckleSlab"] }

/-- The lambda handed to `ACAPI_CallUndoableCommand`: the loop over the batch;
its status is the final value of `err`. -/
def commandBody {Doc : Type} (h : Host Doc) (d : Doc) (slabs : List ObjectState) :
    LoopState Doc :=
  slabs.foldl (slabLoopBody h) (loopStart d)

/-- Method `CreateSlab::Execute`, on the array read from the parameters. -/
def Execute {Doc : Type} (h : Host Doc) (d : Doc) (slabs : List ObjectState) :
    ExecuteResult Doc :=
  let st := commandBody h d slabs
  let ended := h.ACAPI_CallUndoableCommand "CreateSpeckleSlab" d st.err st.doc
  { elementIds := st.elementIds, errCode := ended.1, doc := ended.2,
    log := st.log ++ [.commandReturn st.err] }

/-! ## Per-item reading of the batch -/

/-- Decode of one item from freshly declared arguments. -/
def itemDecode {Doc : Type} (h : Host Doc) (d : Doc) (os : ObjectState) : GSErrCode × SlabArgs :=
  GetSlabFromObjectState h d os SlabArgs.fresh

/-- The create-or-modify call made for an item whose decode succeeded. -/
def itemMutation {Doc : Type} (h : Host Doc) (d : Doc) (os : ObjectState) :
    GSErrCode × Doc × API_Element :=
  let a := (itemDecode h d os).2
  if h.ElementExists d a.element.header.guid then
    h.ACAPI_Element_Change d a.element a.mask a.slabMemo a.memoMask true
  else h.ACAPI_Element_Create d a.element a.slabMemo

/-- An item succeeds when its decode and its create-or-modify call both return no error. -/
def itemSucceeds {Doc : Type} (h : Host Doc) (d : Doc) (os : ObjectState) : Bool :=
  decide ((itemDecode h d os).1 = NoError) && decide ((itemMutation h d os).1 = NoError)

/-- The identifier of an item: the text of the guid its record holds when its
processing ends. -/
def itemIdentifier {Doc : Type} (h : Host Doc) (d : Doc) (os : ObjectState) : String :=
  if (itemDecode h d os).1 = NoError then
    h.APIGuidToString (itemMutation h d os).2.2.header.guid
  else h.APIGuidToString (itemDecode h d os).2.element.header.guid

/-- The document after one item. -/
def docAfterItem {Doc : Type} (h : Host Doc) (d : Doc) (os : ObjectState) : Doc :=
  if (itemDecode h d os).1 = NoError then (itemMutation h d os).2.1 else d

/-- The document after a run of items. -/
def docAfter {Doc : Type} (h : Host Doc) : Doc → List ObjectState → Doc
  | d, [] => d
  | d, os :: rest => docAfter h (docAfterItem h d os) rest

/-- The identifiers of all items, in input order. -/
def itemIdentifiers {Doc : Type} (h : Host Doc) : Doc → List ObjectState → List String
  | _, [] => []
  | d, os :: rest => itemIdentifier h d os :: itemIdentifiers h (docAfterItem h d os) rest

/-- The identifiers of the items that succeed, in input order. -/
def successfulIds {Doc : Type} (h : Host Doc) : Doc → List ObjectState → List String
  | _, [] => []
  | d, os :: rest =>
    (if itemSucceeds h d os then [itemIdentifier h d os] else []) ++
      successfulIds h (docAfterItem h d os) rest

/-- The create or modify call expected for one item: none when decode fails,
modify when the decoded guid names a live element, create otherwise. -/
def expectedMutation {Doc : Type} (h : Host Doc) (d : Doc) (os : ObjectState) : List Event :=
  let a := (itemDecode h d os).2
  if (itemDecode h d os).1 = NoError then
    if h.ElementExists d a.element.header.guid then
      [.ModifyExistingSlab a.element a.mask a.slabMemo a.memoMask
        (h.ACAPI_Element_Change d a.element a.mask a.slabMemo a.memoMask true).1]
    else [.CreateNewSlab a.element a.slabMemo (h.ACAPI_Element_Create d a.element a.slabMemo).1]
  else []

/-- The create and modify calls expected for a batch, in input order. -/
def expectedMutations {Doc : Type} (h : Host Doc) : Doc → List ObjectState → List Event
  | _, [] => []
  | d, os :: rest => expectedMutation h d os ++ expectedMutations h (docAfterItem h d os) rest

/-- The calls one turn of the loop makes for an item, the document being `d`
when the turn starts: the log of the loop body run from an empty log. -/
def itemTrace {Doc : Type} (h : Host Doc) (d : Doc) (os : ObjectState) : List Event :=
  (slabLoopBody h { doc := d, err := NoError, elementIds := [], log := [] } os).log

/-- The calls of the turns of a batch, one list per item, in input order. -/
def batchTrace {Doc : Type} (h : Host Doc) : Doc → List ObjectState → List (List Event)
  | _, [] => []
  | d, os :: rest => itemTrace h d os :: batchTrace h (docAfterItem h d os) rest

/-- Whether an event is the release of the memo buffers. -/
def Event.isDispose : Event → Bool
  | .DisposeElemMemoHdls => true
  | _ => false

/-- Whether an event is a decode of an item. -/
def Event.isDecode : Event → Bool
  | .GetSlabFromObjectState _ _ => true
  | _ => false

/-- The mask fields `GetSlabFromObjectState` marks for every item (lines 47-51). -/
def alwaysMarked : List MaskField :=
  [.poly_nSubPolys, .poly_nCoords, .poly_nArcs, .level, .floorInd]

/-- The mask field marked when an input field is present (lines 82, 88, 100). -/
def markedWhenPresent : FieldName → Option MaskField
  | .StructureFieldName => some .modelElemStructureType
  | .ThicknessFieldName => some .thickness
  | .ReferencePlaneLocationFieldName => some .referencePlaneLocation
  | _ => none

/-! ## A small concrete host -/

/-- A document: the guids of its live slabs and of its live elements of other types. -/
structure DemoDoc where
  slabs : List API_Guid
  others : List API_Guid
deriving DecidableEq, Repr

/-- Text form of the guids of the small host; every other text parses to the null guid. -/
def demoGuidFromString (s : String) : API_Guid :=
  if s = "A" then 1 else if s = "B" then 2 else if s = "C" then 3 else if s = "D" then 4
  else if s = "W" then 9 else 0

/-- Inverse of `demoGuidFromString` on the five guids that have a text form. -/
def demoGuidToString (g : API_Guid) : String :=
  if g = 1 then "A" else if g = 2 then "B" else if g = 3 then "C" else if g = 4 then "D"
  else if g = 9 then "W" else ""

/-- Element data the small host supplies: fixed slab settings under the given header. -/
def demoBaseElement (element : API_Element) : API_Element :=
  { element with
    slab := ⟨.API_CompositeStructure, ⟨300⟩, Double.zero, .APISlabRefPlane_Bottom, ⟨0, 0, 0⟩,
      ⟨7, true⟩⟩ }

/-- A host over `DemoDoc`. Base data lookup fails for a guid that names an
element of another type and succeeds otherwise (with default settings for an
unknown guid); create gives a null guid the fresh guid 4; the undoable command
keeps the writes of its body exactly when the body returns no error. -/
def demoHost : Host DemoDoc where
  APIGuidFromString := demoGuidFromString
  APIGuidToString := demoGuidToString
  GetBaseElementData := fun d element memo =>
    if d.others.contains element.header.guid then (Error, element, memo)
    else (NoError, demoBaseElement element, memo)
  ElementExists := fun d g => d.slabs.contains g || d.others.contains g
  ACAPI_Element_Create := fun d element _ =>
    let g := if element.header.guid = APINULLGuid then 4 else element.header.guid
    if d.slabs.contains g || d.others.contains g then (Error, d, element)
    else (NoError, { d with slabs := d.slabs ++ [g] },
      { element with header := { element.header with guid := g } })
  ACAPI_Element_Change := fun d element _ _ _ _ =>
    if d.slabs.contains element.header.guid then (NoError, d, element) else (Error, d, element)
  ACAPI_CallUndoableCommand := fun _ before err after =>
    (err, if err = NoError then after else before)
  SetStoryLevel := fun _ elevation _ => elevation
  SetStoryLevelAndFloor := fun _ elevation => (Short.zero, elevation)
  defaultShape := ⟨0, 0, 0, Double.zero, []⟩
  SetToMemo := fun s memo => { memo with polygon := some s.geometry }
  structureTypeNames := fun s =>
    if s = "Basic" then some .API_BasicStructure
    else if s = "Composite" then some .API_CompositeStructure else none
  referencePlaneLocationNames := fun s =>
    if s = "Top" then some .APISlabRefPlane_Top
    else if s = "Bottom" then some .APISlabRefPlane_Bottom else none
  edgeAngleTypeNames := fun s =>
    if s = "Vertical" then some .APIEdgeTrim_Vertical
    else if s = "Perpendicular" then some .APIEdgeTrim_Perpendicular
    else if s = "CustomAngle" then some .APIEdgeTrim_CustomAngle else none
  APIMemoMask_Polygon := 1
  APIMemoMask_SideMaterials := 2
  APIMemoMask_EdgeTrims := 4
  halfPI := ⟨0x3FF921FB54442D18⟩

/-- A document with one live element, of another type, whose guid is 9. -/
def demoDoc : DemoDoc := ⟨[], [9]⟩

/-- A contour of four vertices at the elevation with bit pattern 5. -/
def demoShape : ElementShape := ⟨1, 4, 0, ⟨5⟩, [0, 0, 1, 0, 1, 1, 0, 0]⟩

/-- An item that carries only the identifier text `A`. -/
def demoItemA : ObjectState := [(.ElementIdFieldName, .str "A")]

/-- An item that carries the identifier text `C` and a shape. -/
def demoItemC : ObjectState :=
  [(.ElementIdFieldName, .str "C"), (.ShapeFieldName, .shape demoShape)]

/-- An item whose identifier text names the live element of another type. -/
def demoItemW : ObjectState := [(.ElementIdFieldName, .str "W")]

/-- An item whose identifier text is not the text form of any guid. -/
def demoItemMalformed : ObjectState :=
  [(.ElementIdFieldName, .str "not-a-guid"), (.ShapeFieldName, .shape demoShape)]

/-- An item whose structure and reference plane names are in no dictionary. -/
def demoItemUnknownNames : ObjectState :=
  [(.ElementIdFieldName, .str "A"), (.StructureFieldName, .str "not-a-real-type"),
    (.ReferencePlaneLocationFieldName, .str "nowhere")]

/-- An item with a shape and an explicit floor index. -/
def demoItemFloor : ObjectState :=
  [(.ElementIdFieldName, .str "B"), (.ShapeFieldName, .shape demoShape),
    (.FloorIndexFieldName, .int 2)]

/-- An item with a shape and a floor index that no `short` holds. -/
def demoItemFloorBig : ObjectState :=
  [(.ElementIdFieldName, .str "B"), (.ShapeFieldName, .shape demoShape),
    (.FloorIndexFieldName, .int 70000)]

/-- An item with a thickness. -/
def demoItemThickness : ObjectState :=
  [(.ElementIdFieldName, .str "B"), (.ThicknessFieldName, .dbl ⟨250⟩)]

/-- An item with a shape and no edge field. -/
def demoItemPlain : ObjectState :=
  [(.ElementIdFieldName, .str "B"), (.ShapeFieldName, .shape demoShape)]

/-- An item with a shape, a mapped edge type and an edge angle. -/
def demoItemEdges : ObjectState :=
  [(.ElementIdFieldName, .str "B"), (.ShapeFieldName, .shape demoShape),
    (.EdgeAngleTypeFieldName, .str "CustomAngle"), (.EdgeAngleFieldName, .dbl ⟨1234⟩)]

end AddOnCommands


/-! ## Properties of the change mask -/

namespace AddOnCommands

theorem get_MASK_SET (m : ElemMask) (f g : MaskField) :
    (ACAPI_ELEMENT_MASK_SET m f).get g = (decide (g = f) || m.get g) := by
  cases f <;> cases g <;> simp [ACAPI_ELEMENT_MASK_SET, ElemMask.get]

/-- Decode returns exactly the status of base element data lookup. -/
theorem decode_status {Doc : Type} (h : Host Doc) (d : Doc) (os : ObjectState) (a : SlabArgs) :
    (GetSlabFromObjectState h d os a).1 = (baseElementData h d os a).1 := by
  unfold GetSlabFromObjectState
  by_cases hb : (baseElementData h d os a).1 = NoError
  · simp [hb]
  · simp [hb]

/-- The arguments with which the field-by-field part of the decode starts. -/
theorem decode_ok {Doc : Type} (h : Host Doc) (d : Doc) (os : ObjectState) (a : SlabArgs)
    (hok : (GetSlabFromObjectState h d os a).1 = NoError) :
    (GetSlabFromObjectState h d os a).2 =
      decodeEdges h os (decodeReferencePlane h os (decodeThickness os (decodeStructure h os
        (decodeFloorLevel h d os (decodeShape h os (markCommon h
          { a with element := (baseElementData h d os a).2.1,
                   slabMemo := (baseElementData h d os a).2.2 })))))) := by
  have hb : (baseElementData h d os a).1 = NoError := by rw [← decode_status]; exact hok
  unfold GetSlabFromObjectState
  simp [hb]


/-! ## What each block of the decode leaves alone -/

@[simp]
theorem markCommon_header_guid {Doc : Type} (h : Host Doc) (a : SlabArgs) :
    (markCommon h a).element.header.guid = a.element.header.guid := by
  rfl

@[simp]
theorem markCommon_header_typeID {Doc : Type} (h : Host Doc) (a : SlabArgs) :
    (markCommon h a).element.header.typeID = a.element.header.typeID := by
  rfl

@[simp]
theorem markCommon_floorInd {Doc : Type} (h : Host Doc) (a : SlabArgs) :
    (markCommon h a).element.header.floorInd = a.element.header.floorInd := by
  rfl

@[simp]
theorem markCommon_poly {Doc : Type} (h : Host Doc) (a : SlabArgs) :
    (markCommon h a).element.slab.poly = a.element.slab.poly := by
  rfl

@[simp]
theorem markCommon_sideMat {Doc : Type} (h : Host Doc) (a : SlabArgs) :
    (markCommon h a).element.slab.sideMat = a.element.slab.sideMat := by
  rfl

@[simp]
theorem markCommon_level {Doc : Type} (h : Host Doc) (a : SlabArgs) :
    (markCommon h a).element.slab.level = a.element.slab.level := by
  rfl

@[simp]
theorem markCommon_thickness {Doc : Type} (h : Host Doc) (a : SlabArgs) :
    (markCommon h a).element.slab.thickness = a.element.slab.thickness := by
  rfl

@[simp]
theorem markCommon_structure {Doc : Type} (h : Host Doc) (a : SlabArgs) :
    (markCommon h a).element.slab.modelElemStructureType = a.element.slab.modelElemStructureType := by
  rfl

@[simp]
theorem markCommon_refPlane {Doc : Type} (h : Host Doc) (a : SlabArgs) :
    (markCommon h a).element.slab.referencePlaneLocation = a.element.slab.referencePlaneLocation := by
  rfl

@[simp]
theorem markCommon_slabMemo {Doc : Type} (h : Host Doc) (a : SlabArgs) :
    (markCommon h a).slabMemo = a.slabMemo := by
  rfl

@[simp]
theorem markCommon_calls {Doc : Type} (h : Host Doc) (a : SlabArgs) :
    (markCommon h a).calls = a.calls := by
  rfl

@[simp]
theorem decodeShape_header_guid {Doc : Type} (h : Host Doc) (os : ObjectState) (a : SlabArgs) :
    (decodeShape h os a).element.header.guid = a.element.header.guid := by
  unfold decodeShape
  split <;> rfl

@[simp]
theorem decodeShape_header_typeID {Doc : Type} (h : Host Doc) (os : ObjectState) (a : SlabArgs) :
    (decodeShape h os a).element.header.typeID = a.element.header.typeID := by
  unfold decodeShape
  split <;> rfl

@[simp]
theorem decodeShape_floorInd {Doc : Type} (h : Host Doc) (os : ObjectState) (a : SlabArgs) :
    (decodeShape h os a).element.header.floorInd = a.element.header.floorInd := by
  unfold decodeShape
  split <;> rfl

@[simp]
theorem decodeShape_sideMat {Doc : Type} (h : Host Doc) (os : ObjectState) (a : SlabArgs) :
    (decodeShape h os a).element.slab.sideMat = a.element.slab.sideMat := by
  unfold decodeShape
  split <;> rfl

@[simp]
theorem decodeShape_level {Doc : Type} (h : Host Doc) (os : ObjectState) (a : SlabArgs) :
    (decodeShape h os a).element.slab.level = a.element.slab.level := by
  unfold decodeShape
  split <;> rfl

@[simp]
theorem decodeShape_thickness {Doc : Type} (h : Host Doc) (os : ObjectState) (a : SlabArgs) :
    (decodeShape h os a).element.slab.thickness = a.element.slab.thickness := by
  unfold decodeShape
  split <;> rfl

@[simp]
theorem decodeShape_structure {Doc : Type} (h : Host Doc) (os : ObjectState) (a : SlabArgs) :
    (decodeShape h os a).element.slab.modelElemStructureType = a.element.slab.modelElemStructureType := by
  unfold decodeShape
  split <;> rfl

@[simp]
theorem decodeShape_refPlane {Doc : Type} (h : Host Doc) (os : ObjectState) (a : SlabArgs) :
    (decodeShape h os a).element.slab.referencePlaneLocation = a.element.slab.referencePlaneLocation := by
  unfold decodeShape
  split <;> rfl

@[simp]
theorem decodeShape_mask {Doc : Type} (h : Host Doc) (os : ObjectState) (a : SlabArgs) :
    (decodeShape h os a).mask = a.mask := by
  unfold decodeShape
  split <;> rfl

@[simp]
theorem decodeShape_memoMask {Doc : Type} (h : Host Doc) (os : ObjectState) (a : SlabArgs) :
    (decodeShape h os a).memoMask = a.memoMask := by
  unfold decodeShape
  split <;> rfl

@[simp]
theorem decodeFloorLevel_header_guid {Doc : Type} (h : Host Doc) (d : Doc) (os : ObjectState) (a : SlabArgs) :
    (decodeFloorLevel h d os a).element.header.guid = a.element.header.guid := by
  unfold decodeFloorLevel
  split <;> rfl

@[simp]
theorem decodeFloorLevel_header_typeID {Doc : Type} (h : Host Doc) (d : Doc) (os : ObjectState) (a : SlabArgs) :
    (decodeFloorLevel h d os a).element.header.typeID = a.element.header.typeID := by
  unfold decodeFloorLevel
  split <;> rfl

@[simp]
theorem decodeFloorLevel_poly {Doc : Type} (h : Host Doc) (d : Doc) (os : ObjectState) (a : SlabArgs) :
    (decodeFloorLevel h d os a).element.slab.poly = a.element.slab.poly := by
  unfold decodeFloorLevel
  split <;> rfl

@[simp]
theorem decodeFloorLevel_sideMat {Doc : Type} (h : Host Doc) (d : Doc) (os : ObjectState) (a : SlabArgs) :
    (decodeFloorLevel h d os a).element.slab.sideMat = a.element.slab.sideMat := by
  unfold decodeFloorLevel
  split <;> rfl

@[simp]
theorem decodeFloorLevel_thickness {Doc : Type} (h : Host Doc) (d : Doc) (os : ObjectState) (a : SlabArgs) :
    (decodeFloorLevel h d os a).element.slab.thickness = a.element.slab.thickness := by
  unfold decodeFloorLevel
  split <;> rfl

@[simp]
theorem decodeFloorLevel_structure {Doc : Type} (h : Host Doc) (d : Doc) (os : ObjectState) (a : SlabArgs) :
    (decodeFloorLevel h d os a).element.slab.modelElemStructureType = a.element.slab.modelElemStructureType := by
  unfold decodeFloorLevel
  split <;> rfl

@[simp]
theorem decodeFloorLevel_refPlane {Doc : Type} (h : Host Doc) (d : Doc) (os : ObjectState) (a : SlabArgs) :
    (decodeFloorLevel h d os a).element.slab.referencePlaneLocation = a.element.slab.referencePlaneLocation := by
  unfold decodeFloorLevel
  split <;> rfl

@[simp]
theorem decodeFloorLevel_mask {Doc : Type} (h : Host Doc) (d : Doc) (os : ObjectState) (a : SlabArgs) :
    (decodeFloorLevel h d os a).mask = a.mask := by
  unfold decodeFloorLevel
  split <;> rfl

@[simp]
theorem decodeFloorLevel_slabMemo {Doc : Type} (h : Host Doc) (d : Doc) (os : ObjectState) (a : SlabArgs) :
    (decodeFloorLevel h d os a).slabMemo = a.slabMemo := by
  unfold decodeFloorLevel
  split <;> rfl

@[simp]
theorem decodeFloorLevel_memoMask {Doc : Type} (h : Host Doc) (d : Doc) (os : ObjectState) (a : SlabArgs) :
    (decodeFloorLevel h d os a).memoMask = a.memoMask := by
  unfold decodeFloorLevel
  split <;> rfl

@[simp]
theorem decodeStructure_header_guid {Doc : Type} (h : Host Doc) (os : ObjectState) (a : SlabArgs) :
    (decodeStructure h os a).element.header.guid = a.element.header.guid := by
  unfold decodeStructure
  split
  · first
      | rfl
      | (dsimp only; split <;> rfl)
  · rfl

@[simp]
theorem decodeStructure_header_typeID {Doc : Type} (h : Host Doc) (os : ObjectState) (a : SlabArgs) :
    (decodeStructure h os a).element.header.typeID = a.element.header.typeID := by
  unfold decodeStructure
  split
  · first
      | rfl
      | (dsimp only; split <;> rfl)
  · rfl

@[simp]
theorem decodeStructure_floorInd {Doc : Type} (h : Host Doc) (os : ObjectState) (a : SlabArgs) :
    (decodeStructure h os a).element.header.floorInd = a.element.header.floorInd := by
  unfold decodeStructure
  split
  · first
      | rfl
      | (dsimp only; split <;> rfl)
  · rfl

@[simp]
theorem decodeStructure_poly {Doc : Type} (h : Host Doc) (os : ObjectState) (a : SlabArgs) :
    (decodeStructure h os a).element.slab.poly = a.element.slab.poly := by
  unfold decodeStructure
  split
  · first
      | rfl
      | (dsimp only; split <;> rfl)
  · rfl

@[simp]
theorem decodeStructure_sideMat {Doc : Type} (h : Host Doc) (os : ObjectState) (a : SlabArgs) :
    (decodeStructure h os a).element.slab.sideMat = a.element.slab.sideMat := by
  unfold decodeStructure
  split
  · first
      | rfl
      | (dsimp only; split <;> rfl)
  · rfl

@[simp]
theorem decodeStructure_level {Doc : Type} (h : Host Doc) (os : ObjectState) (a : SlabArgs) :
    (decodeStructure h os a).element.slab.level = a.element.slab.level := by
  unfold decodeStructure
  split
  · first
      | rfl
      | (dsimp only; split <;> rfl)
  · rfl

@[simp]
theorem decodeStructure_thickness {Doc : Type} (h : Host Doc) (os : ObjectState) (a : SlabArgs) :
    (decodeStructure h os a).element.slab.thickness = a.element.slab.thickness := by
  unfold decodeStructure
  split
  · first
      | rfl
      | (dsimp only; split <;> rfl)
  · rfl

@[simp]
theorem decodeStructure_refPlane {Doc : Type} (h : Host Doc) (os : ObjectState) (a : SlabArgs) :
    (decodeStructure h os a).element.slab.referencePlaneLocation = a.element.slab.referencePlaneLocation := by
  unfold decodeStructure
  split
  · first
      | rfl
      | (dsimp only; split <;> rfl)
  · rfl

@[simp]
theorem decodeStructure_slabMemo {Doc : Type} (h : Host Doc) (os : ObjectState) (a : SlabArgs) :
    (decodeStructure h os a).slabMemo = a.slabMemo := by
  unfold decodeStructure
  split <;> rfl

@[simp]
theorem decodeStructure_calls {Doc : Type} (h : Host Doc) (os : ObjectState) (a : SlabArgs) :
    (decodeStructure h os a).calls = a.calls := by
  unfold decodeStructure
  split <;> rfl

@[simp]
theorem decodeStructure_memoMask {Doc : Type} (h : Host Doc) (os : ObjectState) (a : SlabArgs) :
    (decodeStructure h os a).memoMask = a.memoMask := by
  unfold decodeStructure
  split <;> rfl

@[simp]
theorem decodeThickness_header_guid (os : ObjectState) (a : SlabArgs) :
    (decodeThickness os a).element.header.guid = a.element.header.guid := by
  unfold decodeThickness
  split <;> rfl

@[simp]
theorem decodeThickness_header_typeID (os : ObjectState) (a : SlabArgs) :
    (decodeThickness os a).element.header.typeID = a.element.header.typeID := by
  unfold decodeThickness
  split <;> rfl

@[simp]
theorem decodeThickness_floorInd (os : ObjectState) (a : SlabArgs) :
    (decodeThickness os a).element.header.floorInd = a.element.header.floorInd := by
  unfold decodeThickness
  split <;> rfl

@[simp]
theorem decodeThickness_poly (os : ObjectState) (a : SlabArgs) :
    (decodeThickness os a).element.slab.poly = a.element.slab.poly := by
  unfold decodeThickness
  split <;> rfl

@[simp]
theorem decodeThickness_sideMat (os : ObjectState) (a : SlabArgs) :
    (decodeThickness os a).element.slab.sideMat = a.element.slab.sideMat := by
  unfold decodeThickness
  split <;> rfl

@[simp]
theorem decodeThickness_level (os : ObjectState) (a : SlabArgs) :
    (decodeThickness os a).element.slab.level = a.element.slab.level := by
  unfold decodeThickness
  split <;> rfl

@[simp]
theorem decodeThickness_structure (os : ObjectState) (a : SlabArgs) :
    (decodeThickness os a).element.slab.modelElemStructureType = a.element.slab.modelElemStructureType := by
  unfold decodeThickness
  split <;> rfl

@[simp]
theorem decodeThickness_refPlane (os : ObjectState) (a : SlabArgs) :
    (decodeThickness os a).element.slab.referencePlaneLocation = a.element.slab.referencePlaneLocation := by
  unfold decodeThickness
  split <;> rfl

@[simp]
theorem decodeThickness_slabMemo (os : ObjectState) (a : SlabArgs) :
    (decodeThickness os a).slabMemo = a.slabMemo := by
  unfold decodeThickness
  split <;> rfl

@[simp]
theorem decodeThickness_calls (os : ObjectState) (a : SlabArgs) :
    (decodeThickness os a).calls = a.calls := by
  unfold decodeThickness
  split <;> rfl

@[simp]
theorem decodeThickness_memoMask (os : ObjectState) (a : SlabArgs) :
    (decodeThickness os a).memoMask = a.memoMask := by
  unfold decodeThickness
  split <;> rfl

@[simp]
theorem decodeReferencePlane_header_guid {Doc : Type} (h : Host Doc) (os : ObjectState) (a : SlabArgs) :
    (decodeReferencePlane h os a).element.header.guid = a.element.header.guid := by
  unfold decodeReferencePlane
  split
  · first
      | rfl
      | (dsimp only; split <;> rfl)
  · rfl

@[simp]
theorem decodeReferencePlane_header_typeID {Doc : Type} (h : Host Doc) (os : ObjectState) (a : SlabArgs) :
    (decodeReferencePlane h os a).element.header.typeID = a.element.header.typeID := by
  unfold decodeReferencePlane
  split
  · first
      | rfl
      | (dsimp only; split <;> rfl)
  · rfl

@[simp]
theorem decodeReferencePlane_floorInd {Doc : Type} (h : Host Doc) (os : ObjectState) (a : SlabArgs) :
    (decodeReferencePlane h os a).element.header.floorInd = a.element.header.floorInd := by
  unfold decodeReferencePlane
  split
  · first
      | rfl
      | (dsimp only; split <;> rfl)
  · rfl

@[simp]
theorem decodeReferencePlane_poly {Doc : Type} (h : Host Doc) (os : ObjectState) (a : SlabArgs) :
    (decodeReferencePlane h os a).element.slab.poly = a.element.slab.poly := by
  unfold decodeReferencePlane
  split
  · first
      | rfl
      | (dsimp only; split <;> rfl)
  · rfl

@[simp]
theorem decodeReferencePlane_sideMat {Doc : Type} (h : Host Doc) (os : ObjectState) (a : SlabArgs) :
    (decodeReferencePlane h os a).element.slab.sideMat = a.element.slab.sideMat := by
  unfold decodeReferencePlane
  split
  · first
      | rfl
      | (dsimp only; split <;> rfl)
  · rfl

@[simp]
theorem decodeReferencePlane_level {Doc : Type} (h : Host Doc) (os : ObjectState) (a : SlabArgs) :
    (decodeReferencePlane h os a).element.slab.level = a.element.slab.level := by
  unfold decodeReferencePlane
  split
  · first
      | rfl
      | (dsimp only; split <;> rfl)
  · rfl

@[simp]
theorem decodeReferencePlane_thickness {Doc : Type} (h : Host Doc) (os : ObjectState) (a : SlabArgs) :
    (decodeReferencePlane h os a).element.slab.thickness = a.element.slab.thickness := by
  unfold decodeReferencePlane
  split
  · first
      | rfl
      | (dsimp only; split <;> rfl)
  · rfl

@[simp]
theorem decodeReferencePlane_structure {Doc : Type} (h : Host Doc) (os : ObjectState) (a : SlabArgs) :
    (decodeReferencePlane h os a).element.slab.modelElemStructureType = a.element.slab.modelElemStructureType := by
  unfold decodeReferencePlane
  split
  · first
      | rfl
      | (dsimp only; split <;> rfl)
  · rfl

@[simp]
theorem decodeReferencePlane_slabMemo {Doc : Type} (h : Host Doc) (os : ObjectState) (a : SlabArgs) :
    (decodeReferencePlane h os a).slabMemo = a.slabMemo := by
  unfold decodeReferencePlane
  split <;> rfl

@[simp]
theorem decodeReferencePlane_calls {Doc : Type} (h : Host Doc) (os : ObjectState) (a : SlabArgs) :
    (decodeReferencePlane h os a).calls = a.calls := by
  unfold decodeReferencePlane
  split <;> rfl

@[simp]
theorem decodeReferencePlane_memoMask {Doc : Type} (h : Host Doc) (os : ObjectState) (a : SlabArgs) :
    (decodeReferencePlane h os a).memoMask = a.memoMask := by
  unfold decodeReferencePlane
  split <;> rfl

@[simp]
theorem decodeEdges_header_guid {Doc : Type} (h : Host Doc) (os : ObjectState) (a : SlabArgs) :
    (decodeEdges h os a).element.header.guid = a.element.header.guid := by
  rfl

@[simp]
theorem decodeEdges_header_typeID {Doc : Type} (h : Host Doc) (os : ObjectState) (a : SlabArgs) :
    (decodeEdges h os a).element.header.typeID = a.element.header.typeID := by
  rfl

@[simp]
theorem decodeEdges_floorInd {Doc : Type} (h : Host Doc) (os : ObjectState) (a : SlabArgs) :
    (decodeEdges h os a).element.header.floorInd = a.element.header.floorInd := by
  rfl

@[simp]
theorem decodeEdges_poly {Doc : Type} (h : Host Doc) (os : ObjectState) (a : SlabArgs) :
    (decodeEdges h os a).element.slab.poly = a.element.slab.poly := by
  rfl

@[simp]
theorem decodeEdges_sideMat {Doc : Type} (h : Host Doc) (os : ObjectState) (a : SlabArgs) :
    (decodeEdges h os a).element.slab.sideMat = a.element.slab.sideMat := by
  rfl

@[simp]
theorem decodeEdges_level {Doc : Type} (h : Host Doc) (os : ObjectState) (a : SlabArgs) :
    (decodeEdges h os a).element.slab.level = a.element.slab.level := by
  rfl

@[simp]
theorem decodeEdges_thickness {Doc : Type} (h : Host Doc) (os : ObjectState) (a : SlabArgs) :
    (decodeEdges h os a).element.slab.thickness = a.element.slab.thickness := by
  rfl

@[simp]
theorem decodeEdges_structure {Doc : Type} (h : Host Doc) (os : ObjectState) (a : SlabArgs) :
    (decodeEdges h os a).element.slab.modelElemStructureType = a.element.slab.modelElemStructureType := by
  rfl

@[simp]
theorem decodeEdges_refPlane {Doc : Type} (h : Host Doc) (os : ObjectState) (a : SlabArgs) :
    (decodeEdges h os a).element.slab.referencePlaneLocation = a.element.slab.referencePlaneLocation := by
  rfl

@[simp]
theorem decodeEdges_mask {Doc : Type} (h : Host Doc) (os : ObjectState) (a : SlabArgs) :
    (decodeEdges h os a).mask = a.mask := by
  rfl

@[simp]
theorem decodeEdges_calls {Doc : Type} (h : Host Doc) (os : ObjectState) (a : SlabArgs) :
    (decodeEdges h os a).calls = a.calls := by
  rfl

@[simp]
theorem decodeEdges_memoMask {Doc : Type} (h : Host Doc) (os : ObjectState) (a : SlabArgs) :
    (decodeEdges h os a).memoMask = a.memoMask := by
  rfl

/-! ## What each block of the decode writes -/

theorem markCommon_mask_get {Doc : Type} (h : Host Doc) (a : SlabArgs) (f : MaskField) :
    (markCommon h a).mask.get f = (a.mask.get f || decide (f ∈ alwaysMarked)) := by
  unfold markCommon
  cases f <;> simp [get_MASK_SET, alwaysMarked]

theorem decodeStructure_mask_get {Doc : Type} (h : Host Doc) (os : ObjectState) (a : SlabArgs)
    (f : MaskField) :
    (decodeStructure h os a).mask.get f =
      (a.mask.get f || (decide (f = .modelElemStructureType) &&
        os.Contains .StructureFieldName)) := by
  unfold decodeStructure
  split <;> simp_all [get_MASK_SET, Bool.or_comm]

theorem decodeThickness_mask_get (os : ObjectState) (a : SlabArgs) (f : MaskField) :
    (decodeThickness os a).mask.get f =
      (a.mask.get f || (decide (f = .thickness) && os.Contains .ThicknessFieldName)) := by
  unfold decodeThickness
  split <;> simp_all [get_MASK_SET, Bool.or_comm]

theorem decodeReferencePlane_mask_get {Doc : Type} (h : Host Doc) (os : ObjectState)
    (a : SlabArgs) (f : MaskField) :
    (decodeReferencePlane h os a).mask.get f =
      (a.mask.get f || (decide (f = .referencePlaneLocation) &&
        os.Contains .ReferencePlaneLocationFieldName)) := by
  unfold decodeReferencePlane
  split <;> simp_all [get_MASK_SET, Bool.or_comm]

theorem decodeStructure_structure {Doc : Type} (h : Host Doc) (os : ObjectState)
    (a : SlabArgs) :
    (decodeStructure h os a).element.slab.modelElemStructureType =
      if os.Contains .StructureFieldName then
        (h.structureTypeNames (os.GetString .StructureFieldName "")).getD
          a.element.slab.modelElemStructureType
      else a.element.slab.modelElemStructureType := by
  unfold decodeStructure
  split
  · dsimp only
    split <;> simp_all
  · rfl

theorem decodeReferencePlane_refPlane {Doc : Type} (h : Host Doc) (os : ObjectState)
    (a : SlabArgs) :
    (decodeReferencePlane h os a).element.slab.referencePlaneLocation =
      if os.Contains .ReferencePlaneLocationFieldName then
        (h.referencePlaneLocationNames
          (os.GetString .ReferencePlaneLocationFieldName "")).getD
          a.element.slab.referencePlaneLocation
      else a.element.slab.referencePlaneLocation := by
  unfold decodeReferencePlane
  split
  · dsimp only
    split <;> simp_all
  · rfl

theorem decodeThickness_thickness (os : ObjectState) (a : SlabArgs) :
    (decodeThickness os a).element.slab.thickness =
      if os.Contains .ThicknessFieldName then
        os.GetDouble .ThicknessFieldName a.element.slab.thickness
      else a.element.slab.thickness := by
  unfold decodeThickness
  split <;> rfl

theorem decodeShape_poly {Doc : Type} (h : Host Doc) (os : ObjectState) (a : SlabArgs) :
    (decodeShape h os a).element.slab.poly =
      if os.Contains .ShapeFieldName then
        ⟨(slabShapeOf h os).VertexCount, (slabShapeOf h os).SubpolyCount,
          (slabShapeOf h os).ArcCount⟩
      else a.element.slab.poly := by
  unfold decodeShape
  split <;> simp_all

theorem decodeShape_slabMemo {Doc : Type} (h : Host Doc) (os : ObjectState) (a : SlabArgs) :
    (decodeShape h os a).slabMemo =
      if os.Contains .ShapeFieldName then h.SetToMemo (slabShapeOf h os) a.slabMemo
      else a.slabMemo := by
  unfold decodeShape
  split <;> simp_all

theorem decodeShape_calls {Doc : Type} (h : Host Doc) (os : ObjectState) (a : SlabArgs) :
    (decodeShape h os a).calls =
      a.calls ++ if os.Contains .ShapeFieldName then [.SetToMemo (slabShapeOf h os)] else [] := by
  unfold decodeShape
  split <;> simp_all

theorem decodeFloorLevel_floorInd {Doc : Type} (h : Host Doc) (d : Doc) (os : ObjectState)
    (a : SlabArgs) :
    (decodeFloorLevel h d os a).element.header.floorInd =
      if os.Contains .FloorIndexFieldName then
        os.GetShort .FloorIndexFieldName a.element.header.floorInd
      else (h.SetStoryLevelAndFloor d (slabShapeOf h os).Level).1 := by
  unfold decodeFloorLevel
  split <;> rfl

theorem decodeFloorLevel_level {Doc : Type} (h : Host Doc) (d : Doc) (os : ObjectState)
    (a : SlabArgs) :
    (decodeFloorLevel h d os a).element.slab.level =
      if os.Contains .FloorIndexFieldName then
        h.SetStoryLevel d (slabShapeOf h os).Level
          (os.GetShort .FloorIndexFieldName a.element.header.floorInd)
      else (h.SetStoryLevelAndFloor d (slabShapeOf h os).Level).2 := by
  unfold decodeFloorLevel
  split <;> rfl

theorem decodeFloorLevel_calls {Doc : Type} (h : Host Doc) (d : Doc) (os : ObjectState)
    (a : SlabArgs) :
    (decodeFloorLevel h d os a).calls =
      a.calls ++ [if os.Contains .FloorIndexFieldName then
        .SetStoryLevel (slabShapeOf h os).Level
          (os.GetShort .FloorIndexFieldName a.element.header.floorInd)
        else .SetStoryLevelAndFloor (slabShapeOf h os).Level] := by
  unfold decodeFloorLevel
  split <;> simp_all

theorem decodeEdges_slabMemo {Doc : Type} (h : Host Doc) (os : ObjectState) (a : SlabArgs) :
    (decodeEdges h os a).slabMemo =
      setEdgeBuffers a.element.slab.poly.nCoords a.element.slab.sideMat (decodeEdgeType h os)
        (decodeEdgeAngle os) h.halfPI a.slabMemo := rfl

/-! ## Reading of input fields -/

theorem contains_of_lookup {os : ObjectState} {f : FieldName} {v : Value}
    (hl : os.lookup f = some v) : os.Contains f = true := by
  simp [ObjectState.Contains, hl]

theorem contains_of_lookup_none {os : ObjectState} {f : FieldName}
    (hl : os.lookup f = none) : os.Contains f = false := by
  simp [ObjectState.Contains, hl]

theorem getString_of_lookup {os : ObjectState} {f : FieldName} {s : String} (dst : String)
    (hl : os.lookup f = some (.str s)) : os.GetString f dst = s := by
  simp [ObjectState.GetString, hl]

theorem getShort_of_lookup {os : ObjectState} {f : FieldName} {i : Int} (dst : Short)
    (hl : os.lookup f = some (.int i)) : os.GetShort f dst = toShort i := by
  simp [ObjectState.GetShort, hl]

theorem toShort_val_of_fits (i : Int) (hlo : -32768 ≤ i) (hhi : i < 32768) :
    (toShort i).val = i := by
  unfold toShort
  simp only
  omega

theorem getDouble_of_lookup {os : ObjectState} {f : FieldName} {x : Double} (dst : Double)
    (hl : os.lookup f = some (.dbl x)) : os.GetDouble f dst = x := by
  simp [ObjectState.GetDouble, hl]

/-! ## Decode of one item: the claims -/

theorem slabShapeOf_of_lookup {Doc : Type} (h : Host Doc) {os : ObjectState} {s : ElementShape}
    (hl : os.lookup .ShapeFieldName = some (.shape s)) : slabShapeOf h os = s := by
  simp [slabShapeOf, ObjectState.GetShape, ObjectState.Contains, hl]

/-- C3, counterexample: the item names a structure type and a reference plane
that no dictionary maps, its decode succeeds, and both fields are marked in the
change mask all the same. -/
theorem unknown_name_marks_field :
    demoItemUnknownNames.lookup .StructureFieldName = some (.str "not-a-real-type") ∧
    demoHost.structureTypeNames "not-a-real-type" = none ∧
    demoItemUnknownNames.lookup .ReferencePlaneLocationFieldName = some (.str "nowhere") ∧
    demoHost.referencePlaneLocationNames "nowhere" = none ∧
    (GetSlabFromObjectState demoHost demoDoc demoItemUnknownNames SlabArgs.fresh).1 = NoError ∧
    (GetSlabFromObjectState demoHost demoDoc demoItemUnknownNames SlabArgs.fresh).2.mask.get
      .modelElemStructureType = true ∧
    (GetSlabFromObjectState demoHost demoDoc demoItemUnknownNames SlabArgs.fresh).2.mask.get
      .referencePlaneLocation = true := by
  decide

/-- C3, amended: when base element data lookup succeeds, an item whose
structureType (respectively referencePlaneLocation) field holds a name the
dictionary does not map is decoded without error, the record keeps the value
that base element data lookup supplied for that field, and the field IS marked
in the change mask. -/
theorem unmapped_name_keeps_value_and_marks {Doc : Type} (h : Host Doc) (d : Doc)
    (os : ObjectState) (a : SlabArgs) (hb : (baseElementData h d os a).1 = NoError) :
    (GetSlabFromObjectState h d os a).1 = NoError ∧
    (∀ name, os.lookup .StructureFieldName = some (.str name) →
      h.structureTypeNames name = none →
      (GetSlabFromObjectState h d os a).2.element.slab.modelElemStructureType =
        (baseElementData h d os a).2.1.slab.modelElemStructureType ∧
      (GetSlabFromObjectState h d os a).2.mask.get .modelElemStructureType = true) ∧
    (∀ name, os.lookup .ReferencePlaneLocationFieldName = some (.str name) →
      h.referencePlaneLocationNames name = none →
      (GetSlabFromObjectState h d os a).2.element.slab.referencePlaneLocation =
        (baseElementData h d os a).2.1.slab.referencePlaneLocation ∧
      (GetSlabFromObjectState h d os a).2.mask.get .referencePlaneLocation = true) := by
  have hok : (GetSlabFromObjectState h d os a).1 = NoError := by rw [decode_status]; exact hb
  refine ⟨hok, ?_, ?_⟩
  · intro name hl hn
    rw [decode_ok h d os a hok]
    simp [decodeStructure_structure, decodeStructure_mask_get, decodeThickness_mask_get,
      decodeReferencePlane_mask_get, contains_of_lookup hl, getString_of_lookup "" hl, hn]
  · intro name hl hn
    rw [decode_ok h d os a hok]
    simp [decodeReferencePlane_refPlane, decodeReferencePlane_mask_get,
      contains_of_lookup hl, getString_of_lookup "" hl, hn]

theorem unmapped_name_keeps_value_and_marks_witness :
    (GetSlabFromObjectState demoHost demoDoc demoItemUnknownNames SlabArgs.fresh).2.element.slab.modelElemStructureType =
        .API_CompositeStructure ∧
      (GetSlabFromObjectState demoHost demoDoc demoItemUnknownNames SlabArgs.fresh).2.mask.get
        .modelElemStructureType = true :=
  (unmapped_name_keeps_value_and_marks demoHost demoDoc demoItemUnknownNames SlabArgs.fresh
    (by decide)).2.1 "not-a-real-type" (by decide) (by decide)

/-- C4, counterexample: the item has no shape field, its decode succeeds from a
cleared mask, and the three polygon-count fields are marked. -/
theorem polygon_counts_marked_without_shape :
    demoItemA.Contains .ShapeFieldName = false ∧
    SlabArgs.fresh.mask.get .poly_nCoords = false ∧
    (GetSlabFromObjectState demoHost demoDoc demoItemA SlabArgs.fresh).1 = NoError ∧
    (GetSlabFromObjectState demoHost demoDoc demoItemA SlabArgs.fresh).2.mask.get
      .poly_nSubPolys = true ∧
    (GetSlabFromObjectState demoHost demoDoc demoItemA SlabArgs.fresh).2.mask.get
      .poly_nCoords = true ∧
    (GetSlabFromObjectState demoHost demoDoc demoItemA SlabArgs.fresh).2.mask.get
      .poly_nArcs = true := by
  decide

/-- C4, amended: a field is marked after a successful decode exactly when it was
marked before, or it is one of the five fields marked for every item
(poly.nSubPolys, poly.nCoords, poly.nArcs, level, floorInd), or it is the field
of a structureType, thickness or referencePlaneLocation entry present in the
item; the three polygon-count fields are marked whether or not a shape is present. -/
theorem marked_fields_after_decode {Doc : Type} (h : Host Doc) (d : Doc) (os : ObjectState)
    (a : SlabArgs) (hok : (GetSlabFromObjectState h d os a).1 = NoError) :
    (∀ f : MaskField, (GetSlabFromObjectState h d os a).2.mask.get f = true ↔
      (a.mask.get f = true ∨ f ∈ alwaysMarked ∨
        ∃ n : FieldName, markedWhenPresent n = some f ∧ os.Contains n = true)) ∧
    (GetSlabFromObjectState h d os a).2.mask.get .poly_nSubPolys = true ∧
    (GetSlabFromObjectState h d os a).2.mask.get .poly_nCoords = true ∧
    (GetSlabFromObjectState h d os a).2.mask.get .poly_nArcs = true := by
  have key : ∀ f : MaskField, (GetSlabFromObjectState h d os a).2.mask.get f =
      (a.mask.get f || decide (f ∈ alwaysMarked) ||
        (decide (f = .modelElemStructureType) && os.Contains .StructureFieldName) ||
        (decide (f = .thickness) && os.Contains .ThicknessFieldName) ||
        (decide (f = .referencePlaneLocation) &&
          os.Contains .ReferencePlaneLocationFieldName)) := by
    intro f
    rw [decode_ok h d os a hok]
    simp only [decodeEdges_mask, decodeReferencePlane_mask_get, decodeThickness_mask_get,
      decodeStructure_mask_get, decodeFloorLevel_mask, decodeShape_mask, markCommon_mask_get]
  refine ⟨?_, ?_, ?_, ?_⟩
  · intro f
    rw [key f]
    constructor
    · intro hf
      simp only [Bool.or_eq_true, Bool.and_eq_true, decide_eq_true_eq] at hf
      rcases hf with (((hf | hf) | hf) | hf) | hf
      · exact Or.inl hf
      · exact Or.inr (Or.inl hf)
      · exact Or.inr (Or.inr ⟨.StructureFieldName, by rw [hf.1]; rfl, hf.2⟩)
      · exact Or.inr (Or.inr ⟨.ThicknessFieldName, by rw [hf.1]; rfl, hf.2⟩)
      · exact Or.inr (Or.inr ⟨.ReferencePlaneLocationFieldName, by rw [hf.1]; rfl, hf.2⟩)
    · intro hf
      simp only [Bool.or_eq_true, Bool.and_eq_true, decide_eq_true_eq]
      rcases hf with hf | hf | ⟨n, hn, hc⟩
      · exact Or.inl (Or.inl (Or.inl (Or.inl hf)))
      · exact Or.inl (Or.inl (Or.inl (Or.inr hf)))
      · cases n <;> simp only [markedWhenPresent, Option.some.injEq, reduceCtorEq] at hn
        · exact Or.inl (Or.inl (Or.inr ⟨hn.symm, hc⟩))
        · exact Or.inl (Or.inr ⟨hn.symm, hc⟩)
        · exact Or.inr ⟨hn.symm, hc⟩
  · rw [key]; simp [alwaysMarked]
  · rw [key]; simp [alwaysMarked]
  · rw [key]; simp [alwaysMarked]

theorem marked_fields_after_decode_witness :
    (GetSlabFromObjectState demoHost demoDoc demoItemA SlabArgs.fresh).2.mask.get .thickness = true ↔
      (SlabArgs.fresh.mask.get .thickness = true ∨ MaskField.thickness ∈ alwaysMarked ∨
        ∃ n : FieldName, markedWhenPresent n = some .thickness ∧
          demoItemA.Contains n = true) :=
  (marked_fields_after_decode demoHost demoDoc demoItemA SlabArgs.fresh (by decide)).1 .thickness

/-- C6, counterexample: the item carries the floor index 70000 and a shape; its
decode succeeds and the floor index of the record is 4464, not 70000. -/
theorem floor_index_beyond_short_is_cut :
    demoItemFloorBig.lookup .FloorIndexFieldName = some (.int 70000) ∧
    (GetSlabFromObjectState demoHost demoDoc demoItemFloorBig SlabArgs.fresh).1 = NoError ∧
    (GetSlabFromObjectState demoHost demoDoc demoItemFloorBig
      SlabArgs.fresh).2.element.header.floorInd.val = 4464 ∧
    (GetSlabFromObjectState demoHost demoDoc demoItemFloorBig
      SlabArgs.fresh).2.element.header.floorInd.val ≠ 70000 := by
  decide

/-- C6, amended: after a successful decode, with the elevation taken from the
shape of the item, a floorIndex field holding `f` makes the floor index of the
record the `short` that `f` is stored as, which is `f` itself whenever
`-32768 ≤ f ≤ 32767`, and makes its level `SetStoryLevel (elevation, that floor
index)`; without the field, floor index and level are those of
`SetStoryLevelAndFloor (elevation)`; and exactly one of the two derivations is
called, chosen by the presence of the field. -/
theorem floor_level_rule {Doc : Type} (h : Host Doc) (d : Doc) (os : ObjectState)
    (a : SlabArgs) (hok : (GetSlabFromObjectState h d os a).1 = NoError) :
    (∀ s, os.lookup .ShapeFieldName = some (.shape s) → (slabShapeOf h os).Level = s.Level) ∧
    (∀ f : Int, os.lookup .FloorIndexFieldName = some (.int f) →
      (GetSlabFromObjectState h d os a).2.element.header.floorInd = toShort f ∧
      (-32768 ≤ f → f < 32768 →
        (GetSlabFromObjectState h d os a).2.element.header.floorInd.val = f) ∧
      (GetSlabFromObjectState h d os a).2.element.slab.level =
        h.SetStoryLevel d (slabShapeOf h os).Level
          (GetSlabFromObjectState h d os a).2.element.header.floorInd) ∧
    (os.lookup .FloorIndexFieldName = none →
      ((GetSlabFromObjectState h d os a).2.element.header.floorInd,
        (GetSlabFromObjectState h d os a).2.element.slab.level) =
        h.SetStoryLevelAndFloor d (slabShapeOf h os).Level) ∧
    (GetSlabFromObjectState h d os a).2.calls.filter UtilityCall.isStoryCall =
      a.calls.filter UtilityCall.isStoryCall ++
        [if os.Contains .FloorIndexFieldName then
          .SetStoryLevel (slabShapeOf h os).Level
            (GetSlabFromObjectState h d os a).2.element.header.floorInd
         else .SetStoryLevelAndFloor (slabShapeOf h os).Level] := by
  rw [decode_ok h d os a hok]
  refine ⟨?_, ?_, ?_, ?_⟩
  · intro s hs
    rw [slabShapeOf_of_lookup h hs]
  · intro f hf
    refine ⟨?_, ?_, ?_⟩
    · simp [decodeFloorLevel_floorInd, contains_of_lookup hf, getShort_of_lookup _ hf]
    · intro hlo hhi
      simp [decodeFloorLevel_floorInd, contains_of_lookup hf, getShort_of_lookup _ hf,
        toShort_val_of_fits f hlo hhi]
    · simp [decodeFloorLevel_floorInd, decodeFloorLevel_level, contains_of_lookup hf,
        getShort_of_lookup _ hf]
  · intro hf
    simp [decodeFloorLevel_floorInd, decodeFloorLevel_level, contains_of_lookup_none hf]
  · simp only [decodeEdges_calls, decodeReferencePlane_calls, decodeThickness_calls,
      decodeStructure_calls, decodeFloorLevel_calls, decodeShape_calls, markCommon_calls,
      decodeEdges_floorInd, decodeReferencePlane_floorInd, decodeThickness_floorInd,
      decodeStructure_floorInd, decodeFloorLevel_floorInd, decodeShape_floorInd,
      markCommon_floorInd]
    cases hp : os.Contains .ShapeFieldName <;> cases hf : os.Contains .FloorIndexFieldName <;>
      simp [UtilityCall.isStoryCall, List.filter_append]

theorem floor_level_rule_witness :
    (GetSlabFromObjectState demoHost demoDoc demoItemFloor
        SlabArgs.fresh).2.element.header.floorInd.val = 2 :=
  ((floor_level_rule demoHost demoDoc demoItemFloor SlabArgs.fresh (by decide)).2.1 2
    (by decide)).2.1 (by decide) (by decide)

/-! ## The per-edge buffers -/

theorem foldl_set_length {α : Type} (v : α) (ks : List Nat) (xs : List α) :
    (ks.foldl (fun a k => a.set k v) xs).length = xs.length := by
  induction ks generalizing xs with
  | nil => rfl
  | cons k ks ih => simp [List.foldl_cons, ih]

theorem foldl_set_getElem? {α : Type} (v : α) (ks : List Nat) (xs : List α) (i : Nat) :
    (ks.foldl (fun a k => a.set k v) xs)[i]? =
      if i ∈ ks ∧ i < xs.length then some v else xs[i]? := by
  induction ks generalizing xs with
  | nil => simp
  | cons k ks ih =>
    rw [List.foldl_cons, ih, List.length_set, List.getElem?_set]
    by_cases hk : k = i
    · subst hk
      by_cases hlt : k < xs.length
      · simp [hlt]
      · have hnone : xs[k]? = none := by
          simp only [List.getElem?_eq_none_iff]; omega
        simp [hlt, hnone]
    · have hne : ¬ i = k := fun e => hk e.symm
      simp [hk, hne]

theorem foldl_fillStep (sideMat : API_OverriddenAttribute) (edgeType : API_EdgeTrimID)
    (edgeAngle : Option Double) (halfPI : Double) (ks : List Nat) (memo : API_ElementMemo) :
    ks.foldl (fillStep sideMat edgeType edgeAngle halfPI) memo =
      { memo with
        sideMaterials := memo.sideMaterials.map (fun a => ks.foldl (fun a k => a.set k sideMat) a)
        edgeTrims := memo.edgeTrims.map (fun a =>
          ks.foldl (fun a k => a.set k ⟨edgeType, edgeAngle.getD halfPI⟩) a) } := by
  induction ks generalizing memo with
  | nil => cases memo; simp
  | cons k ks ih =>
    rw [List.foldl_cons, ih]
    cases memo with
    | mk polygon edgeTrims edgeIDs sideMaterials =>
      cases edgeTrims <;> cases sideMaterials <;> cases edgeAngle <;> simp [fillStep]

theorem setEdgeBuffers_edgeTrims (nCoords : Int) (sideMat : API_OverriddenAttribute)
    (edgeType : API_EdgeTrimID) (edgeAngle : Option Double) (halfPI : Double)
    (memo : API_ElementMemo) :
    (setEdgeBuffers nCoords sideMat edgeType edgeAngle halfPI memo).edgeTrims =
      some ((fillIndices nCoords).foldl
        (fun a k => a.set k ⟨edgeType, edgeAngle.getD halfPI⟩)
        (List.replicate (slotCount nCoords) API_EdgeTrim.cleared)) := by
  unfold setEdgeBuffers
  simp only [foldl_fillStep, Option.map_some']

theorem setEdgeBuffers_sideMaterials (nCoords : Int) (sideMat : API_OverriddenAttribute)
    (edgeType : API_EdgeTrimID) (edgeAngle : Option Double) (halfPI : Double)
    (memo : API_ElementMemo) :
    (setEdgeBuffers nCoords sideMat edgeType edgeAngle halfPI memo).sideMaterials =
      some ((fillIndices nCoords).foldl (fun a k => a.set k sideMat)
        (List.replicate (slotCount nCoords) API_OverriddenAttribute.cleared)) := by
  unfold setEdgeBuffers
  simp only [foldl_fillStep, Option.map_some']

theorem setEdgeBuffers_polygon (nCoords : Int) (sideMat : API_OverriddenAttribute)
    (edgeType : API_EdgeTrimID) (edgeAngle : Option Double) (halfPI : Double)
    (memo : API_ElementMemo) :
    (setEdgeBuffers nCoords sideMat edgeType edgeAngle halfPI memo).polygon = memo.polygon := by
  unfold setEdgeBuffers
  simp only [foldl_fillStep]

theorem mem_fillIndices (nCoords : Int) (k : Nat) :
    k ∈ fillIndices nCoords ↔ 1 ≤ k ∧ (k : Int) ≤ nCoords := by
  unfold fillIndices
  rw [List.mem_range'_1]
  omega

theorem fillIndices_lt_slotCount (nCoords : Int) (k : Nat) (hk : k ∈ fillIndices nCoords) :
    k < slotCount nCoords := by
  rw [mem_fillIndices] at hk
  unfold slotCount
  omega

/-- Slot `i` of a buffer that was allocated cleared and then filled with `v`. -/
theorem filled_getElem? {α : Type} (v c : α) (nCoords : Int) (i : Nat) :
    ((fillIndices nCoords).foldl (fun a k => a.set k v)
        (List.replicate (slotCount nCoords) c))[i]? =
      if 1 ≤ i ∧ (i : Int) ≤ nCoords then some v
      else if i < slotCount nCoords then some c else none := by
  rw [foldl_set_getElem?, List.length_replicate, List.getElem?_replicate]
  by_cases hi : i ∈ fillIndices nCoords
  · have hlt := fillIndices_lt_slotCount nCoords i hi
    have hr := (mem_fillIndices nCoords i).1 hi
    simp [hi, hlt, hr]
  · have hr : ¬ (1 ≤ i ∧ (i : Int) ≤ nCoords) := fun e => hi ((mem_fillIndices nCoords i).2 e)
    simp [hi, hr]

theorem decode_slabMemo {Doc : Type} (h : Host Doc) (d : Doc) (os : ObjectState) (a : SlabArgs)
    (hok : (GetSlabFromObjectState h d os a).1 = NoError) :
    ∃ memo, (GetSlabFromObjectState h d os a).2.slabMemo =
      setEdgeBuffers (GetSlabFromObjectState h d os a).2.element.slab.poly.nCoords
        (GetSlabFromObjectState h d os a).2.element.slab.sideMat
        (decodeEdgeType h os) (decodeEdgeAngle os) h.halfPI memo := by
  rw [decode_ok h d os a hok]
  exact ⟨_, rfl⟩

theorem decodeEdgeType_of_mapped {Doc : Type} (h : Host Doc) {os : ObjectState} {name : String}
    {c : API_EdgeTrimID} (hl : os.lookup .EdgeAngleTypeFieldName = some (.str name))
    (hn : h.edgeAngleTypeNames name = some c) : decodeEdgeType h os = c := by
  simp [decodeEdgeType, contains_of_lookup hl, getString_of_lookup "" hl, hn]

theorem decodeEdgeType_of_unmapped {Doc : Type} (h : Host Doc) {os : ObjectState}
    {name : String} (hl : os.lookup .EdgeAngleTypeFieldName = some (.str name))
    (hn : h.edgeAngleTypeNames name = none) :
    decodeEdgeType h os = .APIEdgeTrim_Perpendicular := by
  simp [decodeEdgeType, contains_of_lookup hl, getString_of_lookup "" hl, hn]

theorem decodeEdgeType_of_absent {Doc : Type} (h : Host Doc) {os : ObjectState}
    (hl : os.lookup .EdgeAngleTypeFieldName = none) :
    decodeEdgeType h os = .APIEdgeTrim_Perpendicular := by
  simp [decodeEdgeType, contains_of_lookup_none hl]

theorem decodeEdgeAngle_of_present {os : ObjectState} {x : Double}
    (hl : os.lookup .EdgeAngleFieldName = some (.dbl x)) : decodeEdgeAngle os = some x := by
  simp [decodeEdgeAngle, contains_of_lookup hl, getDouble_of_lookup _ hl]

theorem decodeEdgeAngle_of_absent {os : ObjectState}
    (hl : os.lookup .EdgeAngleFieldName = none) : decodeEdgeAngle os = none := by
  simp [decodeEdgeAngle, contains_of_lookup_none hl]

/-- C7: after a successful decode with vertex count `V`, every edge slot `k`
with `1 ≤ k ≤ V` holds as trim type the dictionary code of edgeAngleType when
the field is present and mapped and perpendicular when it is absent or
unmapped, and as trim angle the supplied edgeAngle when present and `PI / 2`
when absent. -/
theorem edge_trim_values {Doc : Type} (h : Host Doc) (d : Doc) (os : ObjectState)
    (a : SlabArgs) (hok : (GetSlabFromObjectState h d os a).1 = NoError) (k : Nat)
    (hk1 : 1 ≤ k)
    (hkV : (k : Int) ≤ (GetSlabFromObjectState h d os a).2.element.slab.poly.nCoords) :
    ∃ et t, (GetSlabFromObjectState h d os a).2.slabMemo.edgeTrims = some et ∧
      et[k]? = some t ∧
      (∀ name c, os.lookup .EdgeAngleTypeFieldName = some (.str name) →
        h.edgeAngleTypeNames name = some c → t.sideType = c) ∧
      (∀ name, os.lookup .EdgeAngleTypeFieldName = some (.str name) →
        h.edgeAngleTypeNames name = none → t.sideType = .APIEdgeTrim_Perpendicular) ∧
      (os.lookup .EdgeAngleTypeFieldName = none → t.sideType = .APIEdgeTrim_Perpendicular) ∧
      (∀ x, os.lookup .EdgeAngleFieldName = some (.dbl x) → t.sideAngle = x) ∧
      (os.lookup .EdgeAngleFieldName = none → t.sideAngle = h.halfPI) := by
  obtain ⟨memo, hm⟩ := decode_slabMemo h d os a hok
  rw [hm, setEdgeBuffers_edgeTrims]
  refine ⟨_, ⟨decodeEdgeType h os, (decodeEdgeAngle os).getD h.halfPI⟩, rfl, ?_, ?_, ?_, ?_, ?_, ?_⟩
  · rw [filled_getElem?]
    simp [hk1, hkV]
  · intro name c hl hn
    exact decodeEdgeType_of_mapped h hl hn
  · intro name hl hn
    exact decodeEdgeType_of_unmapped h hl hn
  · intro hl
    exact decodeEdgeType_of_absent h hl
  · intro x hl
    simp [decodeEdgeAngle_of_present hl]
  · intro hl
    simp [decodeEdgeAngle_of_absent hl]

theorem edge_trim_values_witness :
    ∃ et t, (GetSlabFromObjectState demoHost demoDoc demoItemEdges SlabArgs.fresh).2.slabMemo.edgeTrims
        = some et ∧ et[2]? = some t ∧
      (∀ name c, demoItemEdges.lookup .EdgeAngleTypeFieldName = some (.str name) →
        demoHost.edgeAngleTypeNames name = some c → t.sideType = c) ∧
      (∀ name, demoItemEdges.lookup .EdgeAngleTypeFieldName = some (.str name) →
        demoHost.edgeAngleTypeNames name = none → t.sideType = .APIEdgeTrim_Perpendicular) ∧
      (demoItemEdges.lookup .EdgeAngleTypeFieldName = none →
        t.sideType = .APIEdgeTrim_Perpendicular) ∧
      (∀ x, demoItemEdges.lookup .EdgeAngleFieldName = some (.dbl x) → t.sideAngle = x) ∧
      (demoItemEdges.lookup .EdgeAngleFieldName = none → t.sideAngle = demoHost.halfPI) :=
  edge_trim_values demoHost demoDoc demoItemEdges SlabArgs.fresh (by decide) 2 (by decide)
    (by decide)

/-- C8: after a successful decode with vertex count `V ≥ 0`, both per-edge
arrays have exactly `V + 1` slots, every index the fill loop visits lies in
`1..V` and inside both arrays, all slots `1..V` hold one and the same edge trim
and the side material of the record, and slot 0 is not visited and keeps its
cleared value. -/
theorem auxiliary_buffer_sizing {Doc : Type} (h : Host Doc) (d : Doc) (os : ObjectState)
    (a : SlabArgs) (hok : (GetSlabFromObjectState h d os a).1 = NoError) (V : Int)
    (hV : (GetSlabFromObjectState h d os a).2.element.slab.poly.nCoords = V) (h0 : 0 ≤ V) :
    ∃ et sm, (GetSlabFromObjectState h d os a).2.slabMemo.edgeTrims = some et ∧
      (GetSlabFromObjectState h d os a).2.slabMemo.sideMaterials = some sm ∧
      (et.length : Int) = V + 1 ∧ (sm.length : Int) = V + 1 ∧
      (∀ k ∈ fillIndices V, 1 ≤ k ∧ (k : Int) ≤ V ∧ k < et.length ∧ k < sm.length) ∧
      (∃ p : API_EdgeTrim, ∀ k : Nat, 1 ≤ k → (k : Int) ≤ V →
        et[k]? = some p ∧
        sm[k]? = some (GetSlabFromObjectState h d os a).2.element.slab.sideMat) ∧
      0 ∉ fillIndices V ∧
      et[0]? = some API_EdgeTrim.cleared ∧
      sm[0]? = some API_OverriddenAttribute.cleared := by
  obtain ⟨memo, hm⟩ := decode_slabMemo h d os a hok
  rw [hV] at hm
  have hslots : (slotCount V : Int) = V + 1 := by unfold slotCount; omega
  rw [hm, setEdgeBuffers_edgeTrims, setEdgeBuffers_sideMaterials]
  refine ⟨_, _, rfl, rfl, ?_, ?_, ?_, ?_, ?_, ?_, ?_⟩
  · rw [foldl_set_length, List.length_replicate]; exact hslots
  · rw [foldl_set_length, List.length_replicate]; exact hslots
  · intro k hk
    have hr := (mem_fillIndices V k).1 hk
    have hlt := fillIndices_lt_slotCount V k hk
    simp only [foldl_set_length, List.length_replicate]
    exact ⟨hr.1, hr.2, hlt, hlt⟩
  · refine ⟨⟨decodeEdgeType h os, (decodeEdgeAngle os).getD h.halfPI⟩, ?_⟩
    intro k hk1 hkV
    rw [filled_getElem?, filled_getElem?]
    simp [hk1, hkV]
  · intro hmem
    have hr := (mem_fillIndices V 0).1 hmem
    omega
  · rw [filled_getElem?]
    have hpos : 0 < slotCount V := by unfold slotCount; omega
    simp [hpos]
  · rw [filled_getElem?]
    have hpos : 0 < slotCount V := by unfold slotCount; omega
    simp [hpos]

theorem auxiliary_buffer_sizing_witness :
    ∃ et sm, (GetSlabFromObjectState demoHost demoDoc demoItemC SlabArgs.fresh).2.slabMemo.edgeTrims
        = some et ∧
      (GetSlabFromObjectState demoHost demoDoc demoItemC SlabArgs.fresh).2.slabMemo.sideMaterials
        = some sm ∧
      (et.length : Int) = 4 + 1 ∧ (sm.length : Int) = 4 + 1 ∧
      (∀ k ∈ fillIndices 4, 1 ≤ k ∧ (k : Int) ≤ 4 ∧ k < et.length ∧ k < sm.length) ∧
      (∃ p : API_EdgeTrim, ∀ k : Nat, 1 ≤ k → (k : Int) ≤ 4 →
        et[k]? = some p ∧
        sm[k]? = some
          (GetSlabFromObjectState demoHost demoDoc demoItemC SlabArgs.fresh).2.element.slab.sideMat) ∧
      0 ∉ fillIndices 4 ∧
      et[0]? = some API_EdgeTrim.cleared ∧
      sm[0]? = some API_OverriddenAttribute.cleared :=
  auxiliary_buffer_sizing demoHost demoDoc demoItemC SlabArgs.fresh (by decide) 4 (by decide)
    (by decide)

/-! ## The batch loop: one turn -/

theorem slabLoopBody_doc {Doc : Type} (h : Host Doc) (st : LoopState Doc) (os : ObjectState) :
    (slabLoopBody h st os).doc = docAfterItem h st.doc os := by
  unfold slabLoopBody docAfterItem itemMutation itemDecode CreateNewSlab ModifyExistingSlab
  by_cases hd : (GetSlabFromObjectState h st.doc os SlabArgs.fresh).1 = NoError
  · by_cases he : h.ElementExists st.doc
        (GetSlabFromObjectState h st.doc os SlabArgs.fresh).2.element.header.guid = true
    · by_cases hm : (h.ACAPI_Element_Change st.doc
          (GetSlabFromObjectState h st.doc os SlabArgs.fresh).2.element
          (GetSlabFromObjectState h st.doc os SlabArgs.fresh).2.mask
          (GetSlabFromObjectState h st.doc os SlabArgs.fresh).2.slabMemo
          (GetSlabFromObjectState h st.doc os SlabArgs.fresh).2.memoMask true).1 = NoError
      · simp [hd, he, hm]
      · simp [hd, he, hm]
    · by_cases hm : (h.ACAPI_Element_Create st.doc
          (GetSlabFromObjectState h st.doc os SlabArgs.fresh).2.element
          (GetSlabFromObjectState h st.doc os SlabArgs.fresh).2.slabMemo).1 = NoError
      · simp [hd, he, hm]
      · simp [hd, he, hm]
  · simp [hd]

theorem slabLoopBody_elementIds {Doc : Type} (h : Host Doc) (st : LoopState Doc)
    (os : ObjectState) :
    (slabLoopBody h st os).elementIds =
      st.elementIds ++ (if itemSucceeds h st.doc os then [itemIdentifier h st.doc os] else []) := by
  unfold slabLoopBody itemSucceeds itemIdentifier itemMutation itemDecode CreateNewSlab
    ModifyExistingSlab
  by_cases hd : (GetSlabFromObjectState h st.doc os SlabArgs.fresh).1 = NoError
  · by_cases he : h.ElementExists st.doc
        (GetSlabFromObjectState h st.doc os SlabArgs.fresh).2.element.header.guid = true
    · by_cases hm : (h.ACAPI_Element_Change st.doc
          (GetSlabFromObjectState h st.doc os SlabArgs.fresh).2.element
          (GetSlabFromObjectState h st.doc os SlabArgs.fresh).2.mask
          (GetSlabFromObjectState h st.doc os SlabArgs.fresh).2.slabMemo
          (GetSlabFromObjectState h st.doc os SlabArgs.fresh).2.memoMask true).1 = NoError
      · simp [hd, he, hm]
      · simp [hd, he, hm]
    · by_cases hm : (h.ACAPI_Element_Create st.doc
          (GetSlabFromObjectState h st.doc os SlabArgs.fresh).2.element
          (GetSlabFromObjectState h st.doc os SlabArgs.fresh).2.slabMemo).1 = NoError
      · simp [hd, he, hm]
      · simp [hd, he, hm]
  · simp [hd]

theorem slabLoopBody_mutations {Doc : Type} (h : Host Doc) (st : LoopState Doc)
    (os : ObjectState) :
    (slabLoopBody h st os).log.filter Event.isMutation =
      st.log.filter Event.isMutation ++ expectedMutation h st.doc os := by
  unfold slabLoopBody expectedMutation itemDecode CreateNewSlab ModifyExistingSlab
  by_cases hd : (GetSlabFromObjectState h st.doc os SlabArgs.fresh).1 = NoError
  · by_cases he : h.ElementExists st.doc
        (GetSlabFromObjectState h st.doc os SlabArgs.fresh).2.element.header.guid = true
    · by_cases hm : (h.ACAPI_Element_Change st.doc
          (GetSlabFromObjectState h st.doc os SlabArgs.fresh).2.element
          (GetSlabFromObjectState h st.doc os SlabArgs.fresh).2.mask
          (GetSlabFromObjectState h st.doc os SlabArgs.fresh).2.slabMemo
          (GetSlabFromObjectState h st.doc os SlabArgs.fresh).2.memoMask true).1 = NoError
      · simp [hd, he, hm, List.filter_append, Event.isMutation]
      · simp [hd, he, hm, List.filter_append, Event.isMutation]
    · by_cases hm : (h.ACAPI_Element_Create st.doc
          (GetSlabFromObjectState h st.doc os SlabArgs.fresh).2.element
          (GetSlabFromObjectState h st.doc os SlabArgs.fresh).2.slabMemo).1 = NoError
      · simp [hd, he, hm, List.filter_append, Event.isMutation]
      · simp [hd, he, hm, List.filter_append, Event.isMutation]
  · simp [hd, List.filter_append, Event.isMutation]

/-- The status variable after one turn: the status of the decode when it
failed, and of the create or modify call otherwise. -/
theorem slabLoopBody_err {Doc : Type} (h : Host Doc) (st : LoopState Doc) (os : ObjectState) :
    (slabLoopBody h st os).err =
      if (itemDecode h st.doc os).1 = NoError then (itemMutation h st.doc os).1
      else (itemDecode h st.doc os).1 := by
  unfold slabLoopBody itemMutation itemDecode CreateNewSlab ModifyExistingSlab
  by_cases hd : (GetSlabFromObjectState h st.doc os SlabArgs.fresh).1 = NoError
  · by_cases he : h.ElementExists st.doc
        (GetSlabFromObjectState h st.doc os SlabArgs.fresh).2.element.header.guid = true
    · by_cases hm : (h.ACAPI_Element_Change st.doc
          (GetSlabFromObjectState h st.doc os SlabArgs.fresh).2.element
          (GetSlabFromObjectState h st.doc os SlabArgs.fresh).2.mask
          (GetSlabFromObjectState h st.doc os SlabArgs.fresh).2.slabMemo
          (GetSlabFromObjectState h st.doc os SlabArgs.fresh).2.memoMask true).1 = NoError
      · simp [hd, he, hm]
      · simp [hd, he, hm]
    · by_cases hm : (h.ACAPI_Element_Create st.doc
          (GetSlabFromObjectState h st.doc os SlabArgs.fresh).2.element
          (GetSlabFromObjectState h st.doc os SlabArgs.fresh).2.slabMemo).1 = NoError
      · simp [hd, he, hm]
      · simp [hd, he, hm]
  · simp [hd]

/-! ## The batch loop: the whole batch -/

theorem foldl_slabLoopBody_doc {Doc : Type} (h : Host Doc) (slabs : List ObjectState)
    (st : LoopState Doc) :
    (slabs.foldl (slabLoopBody h) st).doc = docAfter h st.doc slabs := by
  induction slabs generalizing st with
  | nil => rfl
  | cons os rest ih => rw [List.foldl_cons, ih, slabLoopBody_doc]; rfl

theorem foldl_slabLoopBody_elementIds {Doc : Type} (h : Host Doc) (slabs : List ObjectState)
    (st : LoopState Doc) :
    (slabs.foldl (slabLoopBody h) st).elementIds =
      st.elementIds ++ successfulIds h st.doc slabs := by
  induction slabs generalizing st with
  | nil => simp [successfulIds]
  | cons os rest ih =>
    rw [List.foldl_cons, ih, slabLoopBody_elementIds, slabLoopBody_doc, List.append_assoc]
    rfl

theorem foldl_slabLoopBody_mutations {Doc : Type} (h : Host Doc) (slabs : List ObjectState)
    (st : LoopState Doc) :
    (slabs.foldl (slabLoopBody h) st).log.filter Event.isMutation =
      st.log.filter Event.isMutation ++ expectedMutations h st.doc slabs := by
  induction slabs generalizing st with
  | nil => simp [expectedMutations]
  | cons os rest ih =>
    rw [List.foldl_cons, ih, slabLoopBody_mutations, slabLoopBody_doc, List.append_assoc]
    rfl

theorem successfulIds_sublist {Doc : Type} (h : Host Doc) (d : Doc) (slabs : List ObjectState) :
    List.Sublist (successfulIds h d slabs) (itemIdentifiers h d slabs) := by
  induction slabs generalizing d with
  | nil => exact List.Sublist.slnil
  | cons os rest ih =>
    unfold successfulIds itemIdentifiers
    by_cases hs : itemSucceeds h d os = true
    · simp only [hs, if_true, List.singleton_append]
      exact (ih _).cons₂ _
    · simp only [hs, List.nil_append]
      exact (ih _).cons _

theorem itemIdentifiers_length {Doc : Type} (h : Host Doc) (d : Doc) (slabs : List ObjectState) :
    (itemIdentifiers h d slabs).length = slabs.length := by
  induction slabs generalizing d with
  | nil => rfl
  | cons os rest ih => simp [itemIdentifiers, ih]

theorem successfulIds_append {Doc : Type} (h : Host Doc) (d : Doc) (xs ys : List ObjectState) :
    successfulIds h d (xs ++ ys) = successfulIds h d xs ++ successfulIds h (docAfter h d xs) ys := by
  induction xs generalizing d with
  | nil => rfl
  | cons os rest ih => simp [successfulIds, docAfter, ih]

theorem expectedMutations_append {Doc : Type} (h : Host Doc) (d : Doc)
    (xs ys : List ObjectState) :
    expectedMutations h d (xs ++ ys) =
      expectedMutations h d xs ++ expectedMutations h (docAfter h d xs) ys := by
  induction xs generalizing d with
  | nil => rfl
  | cons os rest ih => simp [expectedMutations, docAfter, ih]

theorem docAfter_append {Doc : Type} (h : Host Doc) (d : Doc) (xs ys : List ObjectState) :
    docAfter h d (xs ++ ys) = docAfter h (docAfter h d xs) ys := by
  induction xs generalizing d with
  | nil => rfl
  | cons os rest ih => simp [docAfter, ih]

theorem Execute_elementIds_eq {Doc : Type} (h : Host Doc) (d : Doc) (slabs : List ObjectState) :
    (Execute h d slabs).elementIds = successfulIds h d slabs := by
  unfold Execute commandBody
  simp [foldl_slabLoopBody_elementIds, loopStart]

theorem Execute_mutations_eq {Doc : Type} (h : Host Doc) (d : Doc) (slabs : List ObjectState) :
    (Execute h d slabs).log.filter Event.isMutation = expectedMutations h d slabs := by
  unfold Execute commandBody
  simp [List.filter_append, foldl_slabLoopBody_mutations, loopStart, Event.isMutation]

/-- C1: the identifier list `Execute` returns is the list, in input order, of
the identifiers of the items whose decode and whose create-or-modify call both
returned no error; it is a subsequence of the identifiers of all items and has
at most as many entries as the batch has items. -/
theorem Execute_returns_successful_ids {Doc : Type} (h : Host Doc) (d : Doc)
    (slabs : List ObjectState) :
    (Execute h d slabs).elementIds = successfulIds h d slabs ∧
    List.Sublist (Execute h d slabs).elementIds (itemIdentifiers h d slabs) ∧
    (Execute h d slabs).elementIds.length ≤ slabs.length := by
  rw [Execute_elementIds_eq]
  refine ⟨rfl, successfulIds_sublist h d slabs, ?_⟩
  have hlen := (successfulIds_sublist h d slabs).length_le
  rw [itemIdentifiers_length] at hlen
  exact hlen

/-- C5: the create and modify calls `Execute` makes are, item by item in input
order, one `ModifyExistingSlab` with the decoded record, change mask and memo
mask when decode succeeds and `ElementExists` holds for the decoded guid, one
`CreateNewSlab` with the decoded record when decode succeeds and it does not,
and no call when decode fails. -/
theorem Execute_mutation_calls {Doc : Type} (h : Host Doc) (d : Doc)
    (slabs : List ObjectState) :
    (Execute h d slabs).log.filter Event.isMutation = expectedMutations h d slabs ∧
    (∀ (d0 : Doc) (os : ObjectState), (itemDecode h d0 os).1 = NoError →
      h.ElementExists d0 (itemDecode h d0 os).2.element.header.guid = true →
      expectedMutation h d0 os =
        [.ModifyExistingSlab (itemDecode h d0 os).2.element (itemDecode h d0 os).2.mask
          (itemDecode h d0 os).2.slabMemo (itemDecode h d0 os).2.memoMask
          (ModifyExistingSlab h d0 (itemDecode h d0 os).2.element (itemDecode h d0 os).2.mask
            (itemDecode h d0 os).2.slabMemo (itemDecode h d0 os).2.memoMask).1]) ∧
    (∀ (d0 : Doc) (os : ObjectState), (itemDecode h d0 os).1 = NoError →
      h.ElementExists d0 (itemDecode h d0 os).2.element.header.guid = false →
      expectedMutation h d0 os =
        [.CreateNewSlab (itemDecode h d0 os).2.element (itemDecode h d0 os).2.slabMemo
          (CreateNewSlab h d0 (itemDecode h d0 os).2.element
            (itemDecode h d0 os).2.slabMemo).1]) ∧
    (∀ (d0 : Doc) (os : ObjectState), (itemDecode h d0 os).1 ≠ NoError →
      expectedMutation h d0 os = []) := by
  refine ⟨Execute_mutations_eq h d slabs, ?_, ?_, ?_⟩
  · intro d0 os hd he
    simp [expectedMutation, hd, he, ModifyExistingSlab]
  · intro d0 os hd he
    simp [expectedMutation, hd, he, CreateNewSlab]
  · intro d0 os hd
    simp [expectedMutation, hd]

theorem Execute_mutation_calls_witness :
    expectedMutation demoHost demoDoc demoItemA =
      [.CreateNewSlab (itemDecode demoHost demoDoc demoItemA).2.element
        (itemDecode demoHost demoDoc demoItemA).2.slabMemo
        (CreateNewSlab demoHost demoDoc (itemDecode demoHost demoDoc demoItemA).2.element
          (itemDecode demoHost demoDoc demoItemA).2.slabMemo).1] :=
  (Execute_mutation_calls demoHost demoDoc [demoItemA]).2.2.1 demoDoc demoItemA (by decide)
    (by decide)

/-! ## The undoable command and its status -/

theorem slabLoopBody_commands {Doc : Type} (h : Host Doc) (st : LoopState Doc)
    (os : ObjectState) :
    (slabLoopBody h st os).log.filter Event.isCommand = st.log.filter Event.isCommand := by
  unfold slabLoopBody CreateNewSlab ModifyExistingSlab
  by_cases hd : (GetSlabFromObjectState h st.doc os SlabArgs.fresh).1 = NoError
  · by_cases he : h.ElementExists st.doc
        (GetSlabFromObjectState h st.doc os SlabArgs.fresh).2.element.header.guid = true
    · by_cases hm : (h.ACAPI_Element_Change st.doc
          (GetSlabFromObjectState h st.doc os SlabArgs.fresh).2.element
          (GetSlabFromObjectState h st.doc os SlabArgs.fresh).2.mask
          (GetSlabFromObjectState h st.doc os SlabArgs.fresh).2.slabMemo
          (GetSlabFromObjectState h st.doc os SlabArgs.fresh).2.memoMask true).1 = NoError
      · simp [hd, he, hm, List.filter_append, Event.isCommand]
      · simp [hd, he, hm, List.filter_append, Event.isCommand]
    · by_cases hm : (h.ACAPI_Element_Create st.doc
          (GetSlabFromObjectState h st.doc os SlabArgs.fresh).2.element
          (GetSlabFromObjectState h st.doc os SlabArgs.fresh).2.slabMemo).1 = NoError
      · simp [hd, he, hm, List.filter_append, Event.isCommand]
      · simp [hd, he, hm, List.filter_append, Event.isCommand]
  · simp [hd, List.filter_append, Event.isCommand]

theorem foldl_slabLoopBody_commands {Doc : Type} (h : Host Doc) (slabs : List ObjectState)
    (st : LoopState Doc) :
    (slabs.foldl (slabLoopBody h) st).log.filter Event.isCommand =
      st.log.filter Event.isCommand := by
  induction slabs generalizing st with
  | nil => rfl
  | cons os rest ih => rw [List.foldl_cons, ih, slabLoopBody_commands]

/-- The whole loop runs inside one undoable command named `CreateSpeckleSlab`,
which ends with the final value of the status variable of the loop. -/
theorem Execute_one_command {Doc : Type} (h : Host Doc) (d : Doc) (slabs : List ObjectState) :
    (Execute h d slabs).log.filter Event.isCommand =
      [.CallUndoableCommand "CreateSpeckleSlab", .commandReturn (commandBody h d slabs).err] := by
  unfold Execute
  simp [List.filter_append, commandBody, foldl_slabLoopBody_commands, loopStart,
    Event.isCommand]

/-- The status the command body returns is the status of the last item of the
batch (of its decode when that failed, of its create or modify call otherwise). -/
theorem commandBody_err_last {Doc : Type} (h : Host Doc) (d : Doc) (xs : List ObjectState)
    (os : ObjectState) :
    (commandBody h d (xs ++ [os])).err =
      if (itemDecode h (docAfter h d xs) os).1 = NoError then
        (itemMutation h (docAfter h d xs) os).1
      else (itemDecode h (docAfter h d xs) os).1 := by
  unfold commandBody
  rw [List.foldl_append, List.foldl_cons, List.foldl_nil, slabLoopBody_err,
    foldl_slabLoopBody_doc]
  rfl

/-- C2, evaluation at the failing input: the batch is one item that succeeds
followed by one item whose decode fails; the loop runs inside one undoable
command named `CreateSpeckleSlab`, and its body returns the error status of
the last item, not the no-error status. -/
theorem command_body_returns_last_item_error :
    (Execute demoHost demoDoc [demoItemA, demoItemW]).log.filter Event.isCommand =
      [.CallUndoableCommand "CreateSpeckleSlab", .commandReturn Error] ∧
    (commandBody demoHost demoDoc [demoItemA, demoItemW]).err = Error ∧
    Error ≠ NoError ∧
    (Execute demoHost demoDoc [demoItemA, demoItemW]).elementIds = ["A"] := by
  decide

/-- C9, evaluation at the failing input: on a host where create and modify make
the guid live when they succeed and the undoable command keeps the writes of
its body exactly when the body returns no error, the batch of a new slab
followed by an item whose decode fails returns the identifier `C`, yet no
element with that identifier exists in the document `Execute` leaves. -/
theorem returned_identifier_does_not_exist :
    (∀ (d : DemoDoc) (slab : API_Element) (memo : API_ElementMemo),
      (demoHost.ACAPI_Element_Create d slab memo).1 = NoError →
      demoHost.ElementExists (demoHost.ACAPI_Element_Create d slab memo).2.1
        (demoHost.ACAPI_Element_Create d slab memo).2.2.header.guid = true) ∧
    (∀ (d : DemoDoc) (slab : API_Element) (mask : ElemMask) (memo : API_ElementMemo)
      (memoMask : Nat),
      (demoHost.ACAPI_Element_Change d slab mask memo memoMask true).1 = NoError →
      demoHost.ElementExists (demoHost.ACAPI_Element_Change d slab mask memo memoMask true).2.1
        (demoHost.ACAPI_Element_Change d slab mask memo memoMask true).2.2.header.guid = true) ∧
    (∀ (name : String) (before after : DemoDoc) (err : GSErrCode),
      (demoHost.ACAPI_CallUndoableCommand name before err after).2 =
        if err = NoError then after else before) ∧
    (Execute demoHost demoDoc [demoItemC, demoItemW]).elementIds = ["C"] ∧
    demoHost.APIGuidFromString "C" = 3 ∧
    demoHost.ElementExists (Execute demoHost demoDoc [demoItemC, demoItemW]).doc 3 = false := by
  refine ⟨?_, ?_, ?_, by decide, by decide, by decide⟩
  · intro d slab memo
    simp only [demoHost]
    split_ifs <;> simp_all [Error, NoError]
  · intro d slab mask memo memoMask
    simp only [demoHost]
    split_ifs <;> simp_all [Error, NoError]
  · intro name before after err
    rfl

/-- C10, counterexample: the second item of the batch carries an identifier text
that is the text form of no guid; its decode succeeds, a slab is created for
it, and the batch returns three identifiers. -/
theorem malformed_identifier_is_decoded :
    (∀ g : API_Guid, demoHost.APIGuidToString g ≠ "not-a-guid") ∧
    demoItemMalformed.lookup .ElementIdFieldName = some (.str "not-a-guid") ∧
    (itemDecode demoHost (docAfter demoHost demoDoc [demoItemA]) demoItemMalformed).1 = NoError ∧
    (Execute demoHost demoDoc [demoItemA, demoItemMalformed, demoItemC]).elementIds =
      ["A", "D", "C"] ∧
    ((Execute demoHost demoDoc [demoItemA, demoItemMalformed, demoItemC]).log.filter
      Event.isMutation).length = 3 := by
  refine ⟨?_, by decide, by decide, by decide, by decide⟩
  intro g
  simp only [demoHost, demoGuidToString]
  split_ifs <;> decide

/-- C10, amended: decode of an item fails exactly when base element data lookup
fails for the guid parsed from its identifier text, whatever that text is; an
item whose decode fails contributes no identifier, triggers no create or
modify and leaves the document as it was, while the items before and after it
are processed as usual. -/
theorem failed_decode_is_skipped {Doc : Type} (h : Host Doc) (d : Doc)
    (xs : List ObjectState) (os : ObjectState) (ys : List ObjectState)
    (hfail : (itemDecode h (docAfter h d xs) os).1 ≠ NoError) :
    (∀ (d0 : Doc) (item : ObjectState),
      (itemDecode h d0 item).1 = (baseElementData h d0 item SlabArgs.fresh).1) ∧
    (Execute h d (xs ++ os :: ys)).elementIds =
      successfulIds h d xs ++ successfulIds h (docAfter h d xs) ys ∧
    (Execute h d (xs ++ os :: ys)).log.filter Event.isMutation =
      expectedMutations h d xs ++ expectedMutations h (docAfter h d xs) ys ∧
    docAfter h d (xs ++ [os]) = docAfter h d xs := by
  have hdoc : docAfterItem h (docAfter h d xs) os = docAfter h d xs := by
    simp [docAfterItem, hfail]
  refine ⟨fun d0 item => decode_status h d0 item SlabArgs.fresh, ?_, ?_, ?_⟩
  · rw [Execute_elementIds_eq, successfulIds_append]
    simp [successfulIds, itemSucceeds, hfail, hdoc]
  · rw [Execute_mutations_eq, expectedMutations_append]
    simp [expectedMutations, expectedMutation, hfail, hdoc]
  · rw [docAfter_append]
    simp [docAfter, hdoc]

theorem failed_decode_is_skipped_witness :
    (Execute demoHost demoDoc [demoItemA, demoItemW, demoItemC]).elementIds = ["A", "C"] :=
  ((failed_decode_is_skipped demoHost demoDoc [demoItemA] demoItemW [demoItemC]
    (by decide)).2.1).trans (by decide)

/-! ## Presence of fields, and what the edge fields reach -/

theorem decode_mask_get {Doc : Type} (h : Host Doc) (d : Doc) (os : ObjectState)
    (a : SlabArgs) (hok : (GetSlabFromObjectState h d os a).1 = NoError) (f : MaskField) :
    (GetSlabFromObjectState h d os a).2.mask.get f =
      (a.mask.get f || decide (f ∈ alwaysMarked) ||
        (decide (f = .modelElemStructureType) && os.Contains .StructureFieldName) ||
        (decide (f = .thickness) && os.Contains .ThicknessFieldName) ||
        (decide (f = .referencePlaneLocation) &&
          os.Contains .ReferencePlaneLocationFieldName)) := by
  rw [decode_ok h d os a hok]
  simp only [decodeEdges_mask, decodeReferencePlane_mask_get, decodeThickness_mask_get,
    decodeStructure_mask_get, decodeFloorLevel_mask, decodeShape_mask, markCommon_mask_get]

/-- C11: after a successful decode the bits for thickness, structureType and
referencePlaneLocation are set only when they were already set or the field is
present in the item; a thickness field holding `x` sets its bit and makes the
thickness of the record `x`; and when one of the three fields is absent the
record keeps for it the value base element data lookup supplied. -/
theorem presence_marks_three_fields {Doc : Type} (h : Host Doc) (d : Doc) (os : ObjectState)
    (a : SlabArgs) (hok : (GetSlabFromObjectState h d os a).1 = NoError) :
    (GetSlabFromObjectState h d os a).2.mask.get .thickness =
      (a.mask.get .thickness || os.Contains .ThicknessFieldName) ∧
    (GetSlabFromObjectState h d os a).2.mask.get .modelElemStructureType =
      (a.mask.get .modelElemStructureType || os.Contains .StructureFieldName) ∧
    (GetSlabFromObjectState h d os a).2.mask.get .referencePlaneLocation =
      (a.mask.get .referencePlaneLocation || os.Contains .ReferencePlaneLocationFieldName) ∧
    (∀ x, os.lookup .ThicknessFieldName = some (.dbl x) →
      (GetSlabFromObjectState h d os a).2.mask.get .thickness = true ∧
      (GetSlabFromObjectState h d os a).2.element.slab.thickness = x) ∧
    (os.lookup .ThicknessFieldName = none →
      (GetSlabFromObjectState h d os a).2.element.slab.thickness =
        (baseElementData h d os a).2.1.slab.thickness) ∧
    (os.lookup .StructureFieldName = none →
      (GetSlabFromObjectState h d os a).2.element.slab.modelElemStructureType =
        (baseElementData h d os a).2.1.slab.modelElemStructureType) ∧
    (os.lookup .ReferencePlaneLocationFieldName = none →
      (GetSlabFromObjectState h d os a).2.element.slab.referencePlaneLocation =
        (baseElementData h d os a).2.1.slab.referencePlaneLocation) := by
  have hm := decode_mask_get h d os a hok
  refine ⟨?_, ?_, ?_, ?_, ?_, ?_, ?_⟩
  · rw [hm]; simp [alwaysMarked]
  · rw [hm]; simp [alwaysMarked]
  · rw [hm]; simp [alwaysMarked]
  · intro x hl
    refine ⟨?_, ?_⟩
    · rw [hm]; simp [alwaysMarked, contains_of_lookup hl]
    · rw [decode_ok h d os a hok]
      simp [decodeThickness_thickness, contains_of_lookup hl, getDouble_of_lookup _ hl]
  · intro hl
    rw [decode_ok h d os a hok]
    simp [decodeThickness_thickness, contains_of_lookup_none hl]
  · intro hl
    rw [decode_ok h d os a hok]
    simp [decodeStructure_structure, contains_of_lookup_none hl]
  · intro hl
    rw [decode_ok h d os a hok]
    simp [decodeReferencePlane_refPlane, contains_of_lookup_none hl]

theorem presence_marks_three_fields_witness :
    (GetSlabFromObjectState demoHost demoDoc demoItemThickness SlabArgs.fresh).2.mask.get
        .thickness = true ∧
      (GetSlabFromObjectState demoHost demoDoc demoItemThickness
        SlabArgs.fresh).2.element.slab.thickness = ⟨250⟩ :=
  (presence_marks_three_fields demoHost demoDoc demoItemThickness SlabArgs.fresh
    (by decide)).2.2.2.1 ⟨250⟩ (by decide)

theorem baseElementData_congr {Doc : Type} (h : Host Doc) (d : Doc) {os₁ os₂ : ObjectState}
    (a : SlabArgs)
    (hl : os₁.lookup .ElementIdFieldName = os₂.lookup .ElementIdFieldName) :
    baseElementData h d os₁ a = baseElementData h d os₂ a := by
  simp only [baseElementData, ObjectState.GetString, hl]

theorem slabShapeOf_congr {Doc : Type} (h : Host Doc) {os₁ os₂ : ObjectState}
    (hl : os₁.lookup .ShapeFieldName = os₂.lookup .ShapeFieldName) :
    slabShapeOf h os₁ = slabShapeOf h os₂ := by
  simp only [slabShapeOf, ObjectState.Contains, ObjectState.GetShape, hl]

theorem decodeShape_congr {Doc : Type} (h : Host Doc) {os₁ os₂ : ObjectState} (a : SlabArgs)
    (hl : os₁.lookup .ShapeFieldName = os₂.lookup .ShapeFieldName) :
    decodeShape h os₁ a = decodeShape h os₂ a := by
  simp only [decodeShape, slabShapeOf_congr h hl, ObjectState.Contains, hl]

theorem decodeFloorLevel_congr {Doc : Type} (h : Host Doc) (d : Doc) {os₁ os₂ : ObjectState}
    (a : SlabArgs) (hs : os₁.lookup .ShapeFieldName = os₂.lookup .ShapeFieldName)
    (hl : os₁.lookup .FloorIndexFieldName = os₂.lookup .FloorIndexFieldName) :
    decodeFloorLevel h d os₁ a = decodeFloorLevel h d os₂ a := by
  simp only [decodeFloorLevel, slabShapeOf_congr h hs, ObjectState.Contains,
    ObjectState.GetShort, hl]

theorem decodeStructure_congr {Doc : Type} (h : Host Doc) {os₁ os₂ : ObjectState}
    (a : SlabArgs) (hl : os₁.lookup .StructureFieldName = os₂.lookup .StructureFieldName) :
    decodeStructure h os₁ a = decodeStructure h os₂ a := by
  simp only [decodeStructure, ObjectState.Contains, ObjectState.GetString, hl]

theorem decodeThickness_congr {os₁ os₂ : ObjectState} (a : SlabArgs)
    (hl : os₁.lookup .ThicknessFieldName = os₂.lookup .ThicknessFieldName) :
    decodeThickness os₁ a = decodeThickness os₂ a := by
  simp only [decodeThickness, ObjectState.Contains, ObjectState.GetDouble, hl]

theorem decodeReferencePlane_congr {Doc : Type} (h : Host Doc) {os₁ os₂ : ObjectState}
    (a : SlabArgs)
    (hl : os₁.lookup .ReferencePlaneLocationFieldName =
      os₂.lookup .ReferencePlaneLocationFieldName) :
    decodeReferencePlane h os₁ a = decodeReferencePlane h os₂ a := by
  simp only [decodeReferencePlane, ObjectState.Contains, ObjectState.GetString, hl]

theorem setEdgeBuffers_edgeIDs (nCoords : Int) (sideMat : API_OverriddenAttribute)
    (edgeType : API_EdgeTrimID) (edgeAngle : Option Double) (halfPI : Double)
    (memo : API_ElementMemo) :
    (setEdgeBuffers nCoords sideMat edgeType edgeAngle halfPI memo).edgeIDs = none := by
  unfold setEdgeBuffers
  simp only [foldl_fillStep]

/-- C12: two items that differ at most in their edgeAngleType and edgeAngle
fields are decoded to the same status, the same element record, the same
change mask and the same memo mask, and to memos that agree in everything but
the edge-trim array. -/
theorem edge_fields_reach_only_edge_trims {Doc : Type} (h : Host Doc) (d : Doc)
    (os₁ os₂ : ObjectState) (a : SlabArgs)
    (hsame : ∀ f : FieldName, f ≠ .EdgeAngleTypeFieldName → f ≠ .EdgeAngleFieldName →
      os₁.lookup f = os₂.lookup f) :
    (GetSlabFromObjectState h d os₁ a).1 = (GetSlabFromObjectState h d os₂ a).1 ∧
    (GetSlabFromObjectState h d os₁ a).2.element = (GetSlabFromObjectState h d os₂ a).2.element ∧
    (GetSlabFromObjectState h d os₁ a).2.mask = (GetSlabFromObjectState h d os₂ a).2.mask ∧
    (GetSlabFromObjectState h d os₁ a).2.memoMask =
      (GetSlabFromObjectState h d os₂ a).2.memoMask ∧
    (GetSlabFromObjectState h d os₁ a).2.slabMemo.polygon =
      (GetSlabFromObjectState h d os₂ a).2.slabMemo.polygon ∧
    (GetSlabFromObjectState h d os₁ a).2.slabMemo.edgeIDs =
      (GetSlabFromObjectState h d os₂ a).2.slabMemo.edgeIDs ∧
    (GetSlabFromObjectState h d os₁ a).2.slabMemo.sideMaterials =
      (GetSlabFromObjectState h d os₂ a).2.slabMemo.sideMaterials := by
  have hid := hsame .ElementIdFieldName (by decide) (by decide)
  have hsh := hsame .ShapeFieldName (by decide) (by decide)
  have hfl := hsame .FloorIndexFieldName (by decide) (by decide)
  have hst := hsame .StructureFieldName (by decide) (by decide)
  have hth := hsame .ThicknessFieldName (by decide) (by decide)
  have hrp := hsame .ReferencePlaneLocationFieldName (by decide) (by decide)
  have hbase := baseElementData_congr h d a hid
  unfold GetSlabFromObjectState
  simp only [hbase, decodeShape_congr h _ hsh, decodeFloorLevel_congr h d _ hsh hfl,
    decodeStructure_congr h _ hst, decodeThickness_congr _ hth,
    decodeReferencePlane_congr h _ hrp]
  by_cases hb : (baseElementData h d os₂ a).1 = NoError
  · simp [hb, decodeEdges, setEdgeBuffers_polygon, setEdgeBuffers_edgeIDs,
      setEdgeBuffers_sideMaterials]
  · simp [hb]

theorem edge_fields_reach_only_edge_trims_witness :
    (GetSlabFromObjectState demoHost demoDoc demoItemEdges SlabArgs.fresh).2.element =
      (GetSlabFromObjectState demoHost demoDoc demoItemPlain SlabArgs.fresh).2.element :=
  (edge_fields_reach_only_edge_trims demoHost demoDoc demoItemEdges demoItemPlain
    SlabArgs.fresh (by intro f h1 h2; cases f <;> first | rfl | contradiction)).2.1

/-- C13: for an item with no shape field, a successful decode leaves the three
polygon counts of the record and the geometry of the memo as base element data
lookup supplied them, makes no `SetToMemo` call, and sizes and fills the
per-edge arrays from that unchanged vertex count. -/
theorem no_shape_keeps_geometry {Doc : Type} (h : Host Doc) (d : Doc) (os : ObjectState)
    (a : SlabArgs) (hok : (GetSlabFromObjectState h d os a).1 = NoError)
    (hno : os.lookup .ShapeFieldName = none) :
    (GetSlabFromObjectState h d os a).2.element.slab.poly =
      (baseElementData h d os a).2.1.slab.poly ∧
    (GetSlabFromObjectState h d os a).2.slabMemo.polygon =
      (baseElementData h d os a).2.2.polygon ∧
    (GetSlabFromObjectState h d os a).2.calls.filter UtilityCall.isSetToMemo =
      a.calls.filter UtilityCall.isSetToMemo ∧
    (GetSlabFromObjectState h d os a).2.slabMemo =
      setEdgeBuffers (baseElementData h d os a).2.1.slab.poly.nCoords
        (GetSlabFromObjectState h d os a).2.element.slab.sideMat (decodeEdgeType h os)
        (decodeEdgeAngle os) h.halfPI (baseElementData h d os a).2.2 := by
  have hc := contains_of_lookup_none hno
  rw [decode_ok h d os a hok]
  refine ⟨?_, ?_, ?_, ?_⟩
  · simp [decodeShape_poly, hc]
  · simp [decodeEdges_slabMemo, setEdgeBuffers_polygon, decodeShape_slabMemo, hc]
  · simp only [decodeEdges_calls, decodeReferencePlane_calls, decodeThickness_calls,
      decodeStructure_calls, decodeFloorLevel_calls, decodeShape_calls, markCommon_calls, hc]
    cases hf : os.Contains .FloorIndexFieldName <;>
      simp [UtilityCall.isSetToMemo, List.filter_append]
  · simp [decodeEdges_slabMemo, decodeShape_slabMemo, decodeShape_poly, hc]

theorem no_shape_keeps_geometry_witness :
    (GetSlabFromObjectState demoHost demoDoc demoItemThickness SlabArgs.fresh).2.element.slab.poly =
      (baseElementData demoHost demoDoc demoItemThickness SlabArgs.fresh).2.1.slab.poly :=
  (no_shape_keeps_geometry demoHost demoDoc demoItemThickness SlabArgs.fresh (by decide)
    (by decide)).1

/-- C15: decode returns an error exactly when base element data lookup does,
and then the same code, with the change mask, the memo mask and the call log
as they were passed in and the memo as base lookup left it; the status is the
same for all items with the same identifier text, whatever their other fields
hold. -/
theorem decode_fails_iff_base_lookup_fails {Doc : Type} (h : Host Doc) (d : Doc)
    (os : ObjectState) (a : SlabArgs) :
    ((GetSlabFromObjectState h d os a).1 ≠ NoError ↔ (baseElementData h d os a).1 ≠ NoError) ∧
    (GetSlabFromObjectState h d os a).1 = (baseElementData h d os a).1 ∧
    ((GetSlabFromObjectState h d os a).1 ≠ NoError →
      (GetSlabFromObjectState h d os a).2.mask = a.mask ∧
      (GetSlabFromObjectState h d os a).2.memoMask = a.memoMask ∧
      (GetSlabFromObjectState h d os a).2.calls = a.calls ∧
      (GetSlabFromObjectState h d os a).2.slabMemo = (baseElementData h d os a).2.2) ∧
    (∀ os₂ : ObjectState,
      os₂.GetString .ElementIdFieldName "" = os.GetString .ElementIdFieldName "" →
      (GetSlabFromObjectState h d os₂ a).1 = (GetSlabFromObjectState h d os a).1) := by
  refine ⟨by rw [decode_status], decode_status h d os a, ?_, ?_⟩
  · intro hne
    have hb : (baseElementData h d os a).1 ≠ NoError := by rw [← decode_status]; exact hne
    unfold GetSlabFromObjectState
    simp [hb]
  · intro os₂ hid
    rw [decode_status, decode_status]
    simp only [baseElementData, hid]

theorem decode_fails_iff_base_lookup_fails_witness :
    (GetSlabFromObjectState demoHost demoDoc demoItemW SlabArgs.fresh).2.mask =
      SlabArgs.fresh.mask :=
  ((decode_fails_iff_base_lookup_fails demoHost demoDoc demoItemW SlabArgs.fresh).2.2.1
    (by decide)).1

/-! ## The call log, item by item -/

theorem slabLoopBody_log {Doc : Type} (h : Host Doc) (st : LoopState Doc) (os : ObjectState) :
    (slabLoopBody h st os).log = st.log ++ itemTrace h st.doc os := by
  unfold itemTrace slabLoopBody CreateNewSlab ModifyExistingSlab
  by_cases hd : (GetSlabFromObjectState h st.doc os SlabArgs.fresh).1 = NoError
  · by_cases he : h.ElementExists st.doc
        (GetSlabFromObjectState h st.doc os SlabArgs.fresh).2.element.header.guid = true
    · by_cases hm : (h.ACAPI_Element_Change st.doc
          (GetSlabFromObjectState h st.doc os SlabArgs.fresh).2.element
          (GetSlabFromObjectState h st.doc os SlabArgs.fresh).2.mask
          (GetSlabFromObjectState h st.doc os SlabArgs.fresh).2.slabMemo
          (GetSlabFromObjectState h st.doc os SlabArgs.fresh).2.memoMask true).1 = NoError
      · simp [hd, he, hm]
      · simp [hd, he, hm]
    · by_cases hm : (h.ACAPI_Element_Create st.doc
          (GetSlabFromObjectState h st.doc os SlabArgs.fresh).2.element
          (GetSlabFromObjectState h st.doc os SlabArgs.fresh).2.slabMemo).1 = NoError
      · simp [hd, he, hm]
      · simp [hd, he, hm]
  · simp [hd]

theorem foldl_slabLoopBody_log {Doc : Type} (h : Host Doc) (slabs : List ObjectState)
    (st : LoopState Doc) :
    (slabs.foldl (slabLoopBody h) st).log = st.log ++ (batchTrace h st.doc slabs).flatten := by
  induction slabs generalizing st with
  | nil => simp [batchTrace]
  | cons os rest ih =>
    rw [List.foldl_cons, ih, slabLoopBody_log, slabLoopBody_doc]
    simp [batchTrace]

/-- The calls of one turn: the decode of the item first, then the existence
check and the create or modify call when the decode succeeded, then one
release of the memo buffers, then at most the append to the result list. -/
theorem itemTrace_shape {Doc : Type} (h : Host Doc) (d : Doc) (os : ObjectState) :
    ∃ (err : GSErrCode) (pre post : List Event),
      itemTrace h d os =
        .GetSlabFromObjectState os err :: (pre ++ .DisposeElemMemoHdls :: post) ∧
      (∀ e ∈ pre, e.isDispose = false ∧ e.isDecode = false) ∧
      (∀ e ∈ post, e.isDispose = false ∧ e.isDecode = false ∧ e.isMutation = false) ∧
      pre.filter Event.isMutation = expectedMutation h d os := by
  unfold itemTrace slabLoopBody expectedMutation itemDecode CreateNewSlab ModifyExistingSlab
  by_cases hd : (GetSlabFromObjectState h d os SlabArgs.fresh).1 = NoError
  · by_cases he : h.ElementExists d
        (GetSlabFromObjectState h d os SlabArgs.fresh).2.element.header.guid = true
    · by_cases hm : (h.ACAPI_Element_Change d
          (GetSlabFromObjectState h d os SlabArgs.fresh).2.element
          (GetSlabFromObjectState h d os SlabArgs.fresh).2.mask
          (GetSlabFromObjectState h d os SlabArgs.fresh).2.slabMemo
          (GetSlabFromObjectState h d os SlabArgs.fresh).2.memoMask true).1 = NoError
      · simp only [hd, he, hm, ne_eq, not_true_eq_false, if_false, if_true, List.nil_append]
        refine ⟨_, [.ElementExists _ _, .ModifyExistingSlab _ _ _ _ _], [.listAdder _], rfl,
          ?_, ?_, ?_⟩ <;> simp [Event.isDispose, Event.isDecode, Event.isMutation]
      · simp only [hd, he, hm, ne_eq, not_true_eq_false, not_false_eq_true, if_false, if_true,
          List.nil_append]
        refine ⟨_, [.ElementExists _ _, .ModifyExistingSlab _ _ _ _ _], [], rfl,
          ?_, ?_, ?_⟩ <;> simp [Event.isDispose, Event.isDecode, Event.isMutation]
    · rw [Bool.not_eq_true] at he
      by_cases hm : (h.ACAPI_Element_Create d
          (GetSlabFromObjectState h d os SlabArgs.fresh).2.element
          (GetSlabFromObjectState h d os SlabArgs.fresh).2.slabMemo).1 = NoError
      · simp only [hd, he, hm, ne_eq, not_true_eq_false, if_false, if_true, List.nil_append,
          Bool.false_eq_true]
        refine ⟨_, [.ElementExists _ _, .CreateNewSlab _ _ _], [.listAdder _], rfl,
          ?_, ?_, ?_⟩ <;> simp [Event.isDispose, Event.isDecode, Event.isMutation]
      · simp only [hd, he, hm, ne_eq, not_true_eq_false, not_false_eq_true, if_false, if_true,
          List.nil_append, Bool.false_eq_true]
        refine ⟨_, [.ElementExists _ _, .CreateNewSlab _ _ _], [], rfl,
          ?_, ?_, ?_⟩ <;> simp [Event.isDispose, Event.isDecode, Event.isMutation]
  · simp only [hd, ne_eq, not_false_eq_true, if_true, List.nil_append]
    exact ⟨_, [], [], rfl, by simp, by simp, by simp⟩

theorem batchTrace_shape {Doc : Type} (h : Host Doc) (d : Doc) (slabs : List ObjectState) :
    List.Forall₂
      (fun os seg => ∃ (err : GSErrCode) (pre post : List Event),
        seg = .GetSlabFromObjectState os err :: (pre ++ .DisposeElemMemoHdls :: post) ∧
        (∀ e ∈ pre, e.isDispose = false ∧ e.isDecode = false) ∧
        (∀ e ∈ post, e.isDispose = false ∧ e.isDecode = false ∧ e.isMutation = false))
      slabs (batchTrace h d slabs) := by
  induction slabs generalizing d with
  | nil => exact List.Forall₂.nil
  | cons os rest ih =>
    obtain ⟨err, pre, post, h1, h2, h3, _⟩ := itemTrace_shape h d os
    exact List.Forall₂.cons ⟨err, pre, post, h1, h2, h3⟩ (ih _)

/-- C14: the call log of `Execute` is the opening of the command, then one
segment per item in input order, then the return of the command body; the
segment of an item starts with the decode of that item and holds exactly one
release of the memo buffers, which comes after every create or modify call of
the segment, so before the decode of the next item and before the batch ends. -/
theorem memo_released_once_per_item {Doc : Type} (h : Host Doc) (d : Doc)
    (slabs : List ObjectState) :
    (Execute h d slabs).log =
      .CallUndoableCommand "CreateSpeckleSlab" ::
        ((batchTrace h d slabs).flatten ++ [.commandReturn (commandBody h d slabs).err]) ∧
    List.Forall₂
      (fun os seg => ∃ (err : GSErrCode) (pre post : List Event),
        seg = .GetSlabFromObjectState os err :: (pre ++ .DisposeElemMemoHdls :: post) ∧
        (∀ e ∈ pre, e.isDispose = false ∧ e.isDecode = false) ∧
        (∀ e ∈ post, e.isDispose = false ∧ e.isDecode = false ∧ e.isMutation = false))
      slabs (batchTrace h d slabs) ∧
    (∀ seg ∈ batchTrace h d slabs,
      seg.filter Event.isDispose = [.DisposeElemMemoHdls]) := by
  refine ⟨?_, batchTrace_shape h d slabs, ?_⟩
  · unfold Execute commandBody
    simp [foldl_slabLoopBody_log, loopStart]
  · have key : ∀ (d0 : Doc) (l : List ObjectState), ∀ seg ∈ batchTrace h d0 l,
        seg.filter Event.isDispose = [.DisposeElemMemoHdls] := by
      intro d0 l
      induction l generalizing d0 with
      | nil => intro seg hseg; simp [batchTrace] at hseg
      | cons os rest ih =>
        intro seg hseg
        simp only [batchTrace, List.mem_cons] at hseg
        rcases hseg with hseg | hseg
        · obtain ⟨err, pre, post, h1, h2, h3, _⟩ := itemTrace_shape h d0 os
          have hpre : pre.filter Event.isDispose = [] := by
            rw [List.filter_eq_nil_iff]
            intro e he
            simp [(h2 e he).1]
          have hpost : post.filter Event.isDispose = [] := by
            rw [List.filter_eq_nil_iff]
            intro e he
            simp [(h3 e he).1]
          rw [hseg, h1]
          simp [List.filter_cons, List.filter_append, Event.isDispose, hpre, hpost]
        · exact ih _ seg hseg
    exact key d slabs

/-! ## The batch loop composes -/

theorem commandBody_elementIds {Doc : Type} (h : Host Doc) (d : Doc)
    (slabs : List ObjectState) :
    (commandBody h d slabs).elementIds = successfulIds h d slabs := by
  unfold commandBody
  simp [foldl_slabLoopBody_elementIds, loopStart]

theorem commandBody_doc {Doc : Type} (h : Host Doc) (d : Doc) (slabs : List ObjectState) :
    (commandBody h d slabs).doc = docAfter h d slabs := by
  unfold commandBody
  simp [foldl_slabLoopBody_doc, loopStart]

/-- C16: the identifier list the batch loop produces on `xs ++ ys` from the
document `d` is the list it produces on `xs` from `d` followed by the list it
produces on `ys` from the document the loop over `xs` leaves, and likewise for
the document it leaves; every item is decoded from cleared arguments, and what
one turn appends, the document and the status it leaves depend on the earlier
turns only through the document. -/
theorem batch_loop_composes {Doc : Type} (h : Host Doc) (d : Doc) (xs ys : List ObjectState) :
    (commandBody h d (xs ++ ys)).elementIds =
      (commandBody h d xs).elementIds ++
        (commandBody h (commandBody h d xs).doc ys).elementIds ∧
    (Execute h d (xs ++ ys)).elementIds =
      (Execute h d xs).elementIds ++ (Execute h (commandBody h d xs).doc ys).elementIds ∧
    (commandBody h d (xs ++ ys)).doc = (commandBody h (commandBody h d xs).doc ys).doc ∧
    SlabArgs.fresh = ⟨API_Element.zero, ElemMask.zero, API_ElementMemo.zero, 0, []⟩ ∧
    (∀ (st₁ st₂ : LoopState Doc) (os : ObjectState), st₁.doc = st₂.doc →
      (slabLoopBody h st₁ os).doc = (slabLoopBody h st₂ os).doc ∧
      (slabLoopBody h st₁ os).err = (slabLoopBody h st₂ os).err ∧
      ∃ new : List String,
        (slabLoopBody h st₁ os).elementIds = st₁.elementIds ++ new ∧
        (slabLoopBody h st₂ os).elementIds = st₂.elementIds ++ new) := by
  refine ⟨?_, ?_, ?_, rfl, ?_⟩
  · simp only [commandBody_elementIds, commandBody_doc, successfulIds_append]
  · simp only [Execute_elementIds_eq, commandBody_doc, successfulIds_append]
  · simp only [commandBody_doc, docAfter_append]
  · intro st₁ st₂ os hdoc
    refine ⟨?_, ?_, _, slabLoopBody_elementIds h st₁ os, ?_⟩
    · rw [slabLoopBody_doc, slabLoopBody_doc, hdoc]
    · rw [slabLoopBody_err, slabLoopBody_err, hdoc]
    · rw [slabLoopBody_elementIds, hdoc]

theorem batch_loop_composes_witness :
    (slabLoopBody demoHost (loopStart demoDoc) demoItemA).err =
      (slabLoopBody demoHost
        { doc := demoDoc, err := Error, elementIds := ["C"], log := [] } demoItemA).err :=
  ((batch_loop_composes demoHost demoDoc [demoItemA] [demoItemC]).2.2.2.2
    (loopStart demoDoc) { doc := demoDoc, err := Error, elementIds := ["C"], log := [] }
    demoItemA rfl).2.1

end AddOnCommands
